import Mathlib

/-!
Shallow embedding of the request-governance core of the SmartTravel repository:
the `RateLimitService` (token bucket, sliding-window log, IP block table and
circuit breaker, from services/rateLimitService.ts), the Gemini orchestrator
`getTravelAnalysis` with its `retryWithBackoff` loop (services/geminiService.ts),
and the autocomplete pipeline (`CacheManager`, `getAutocompleteResults`,
`deduplicateResults` from services/cityAutocompleteService.ts).

Timestamps are natural-number milliseconds (the JS `Date.now()` clock); the
fractional token count of the bucket is modelled as an exact rational, the
idealisation of the JS double arithmetic of the source.  The JS `Map` fields
are modelled as association lists with first-match lookup and in-place update,
which matches `Map.get` / `Map.set` / `Map.delete` semantics.  The client
identity (`getClientIP`, a deterministic fingerprint hash) is passed as an
explicit `ip : String` parameter.
-/

namespace SmartTravel

/-- First-match lookup in an association list (JS `Map.get`). -/
def mapGet {α : Type} (m : List (String × α)) (k : String) : Option α :=
  (m.find? (fun p => p.1 == k)).map (fun p => p.2)

/-- Replace the first binding of `k`, or append a new one (JS `Map.set`). -/
def mapSet {α : Type} (m : List (String × α)) (k : String) (v : α) : List (String × α) :=
  match m with
  | [] => [(k, v)]
  | p :: rest => if p.1 == k then (k, v) :: rest else p :: mapSet rest k v

/-- Remove every binding of `k` (JS `Map.delete`; keys are unique anyway). -/
def mapDelete {α : Type} (m : List (String × α)) (k : String) : List (String × α) :=
  m.filter (fun p => !(p.1 == k))

/-- One entry of the per-identity request window log (interface `RequestLog`). -/
structure RequestLog where
  timestamp : Nat
  ip : String
  size : Nat
  endpoint : String
deriving DecidableEq, Repr

/-- Per-identity token bucket state (the values of the `tokenBuckets` map). -/
structure Bucket where
  tokens : ℚ
  lastRefill : Nat
deriving DecidableEq, Repr

/-- Circuit breaker state tag (`'CLOSED' | 'OPEN' | 'HALF_OPEN'`). -/
inductive CBState where
  | CLOSED
  | OPEN
  | HALF_OPEN
deriving DecidableEq, Repr

/-- Interface `CircuitBreakerState` of rateLimitService.ts. -/
structure CircuitBreakerState where
  failures : Nat
  lastFailureTime : Nat
  state : CBState
deriving DecidableEq, Repr

/-- Interface `RateLimitConfig` of rateLimitService.ts. -/
structure RateLimitConfig where
  maxRequestsPerMinute : Nat
  maxRequestsPerHour : Nat
  maxRequestSize : Nat
  bucketCapacity : Nat
  refillRate : ℚ
  blockDurationMinutes : Nat
  suspiciousThreshold : Nat

/-- The `config` literal of `RateLimitService`. -/
def config : RateLimitConfig :=
  { maxRequestsPerMinute := 10
    maxRequestsPerHour := 100
    maxRequestSize := 50000
    bucketCapacity := 20
    refillRate := 1/2
    blockDurationMinutes := 15
    suspiciousThreshold := 5 }

/-- The mutable fields of the `RateLimitService` singleton. -/
structure RLState where
  requestLogs : List (String × List RequestLog)
  tokenBuckets : List (String × Bucket)
  blockedIPs : List (String × Nat)
  circuitBreaker : CircuitBreakerState
deriving DecidableEq, Repr

/-- The state of a freshly constructed `RateLimitService`. -/
def initialState : RLState :=
  { requestLogs := []
    tokenBuckets := []
    blockedIPs := []
    circuitBreaker := { failures := 0, lastFailureTime := 0, state := CBState.CLOSED } }

/-- `isCircuitBreakerOpen`. -/
def isCircuitBreakerOpen (st : RLState) : Bool :=
  st.circuitBreaker.state == CBState.OPEN

/-- `isIPBlocked`: reports whether `ip` is blocked and lazily evicts an
expired block entry. -/
def isIPBlocked (st : RLState) (ip : String) (now : Nat) : Bool × RLState :=
  match mapGet st.blockedIPs ip with
  | none => (false, st)
  | some blockExpiry =>
    if now > blockExpiry then
      (false, { st with blockedIPs := mapDelete st.blockedIPs ip })
    else
      (true, st)

/-- `blockIP`: insert `ip` into the block table for `blockDurationMinutes`. -/
def blockIP (st : RLState) (ip : String) (now : Nat) : RLState :=
  let blockUntil := now + config.blockDurationMinutes * 60 * 1000
  { st with blockedIPs := mapSet st.blockedIPs ip blockUntil }

/-- The bucket looked up for `ip`, or the lazily created full bucket
(`\x7b tokens: capacity, lastRefill: now \x7d`). -/
def bucketOrNew (st : RLState) (ip : String) (now : Nat) : Bucket :=
  (mapGet st.tokenBuckets ip).getD { tokens := (config.bucketCapacity : ℚ), lastRefill := now }

/-- The refill step of `checkTokenBucket`: add `elapsedSeconds * refillRate`
tokens, capped at `bucketCapacity`.  Elapsed time is a signed difference of
millisecond timestamps, as in the source. -/
def refilledTokens (b : Bucket) (now : Nat) : ℚ :=
  let timePassed : ℚ := (((now : Int) - (b.lastRefill : Int) : Int) : ℚ) / 1000
  let tokensToAdd := timePassed * config.refillRate
  min (config.bucketCapacity : ℚ) (b.tokens + tokensToAdd)

/-- `checkTokenBucket`: refill-then-maybe-consume.  Returns whether a token
was available and the updated state (the source mutates the stored bucket in
place; here the updated bucket is written back with `mapSet`). -/
def checkTokenBucket (st : RLState) (ip : String) (now : Nat) : Bool × RLState :=
  let bucket := bucketOrNew st ip now
  let tokens := refilledTokens bucket now
  if 1 ≤ tokens then
    (true, { st with tokenBuckets := mapSet st.tokenBuckets ip { tokens := tokens - 1, lastRefill := now } })
  else
    (false, { st with tokenBuckets := mapSet st.tokenBuckets ip { tokens := tokens, lastRefill := now } })

/-- `checkSuspiciousPatterns`: at least `suspiciousThreshold` requests in the
last 10 seconds, or a most-recent entry more than 3 times the historical
average size and above 10000 bytes. -/
def checkSuspiciousPatterns (logs : List RequestLog) (now : Nat) : Bool :=
  let recentRequests := logs.filter (fun log => decide (now - log.timestamp < 10000))
  if config.suspiciousThreshold ≤ recentRequests.length then
    true
  else
    let avgSize : ℚ :=
      if 0 < logs.length then
        (logs.foldl (fun sum log => sum + (log.size : ℚ)) 0) / (logs.length : ℚ)
      else 0
    match logs.getLast? with
    | none => false
    | some lastRequest =>
      decide (avgSize * 3 < (lastRequest.size : ℚ)) && decide (10000 < lastRequest.size)

/-- `updateCircuitBreaker`: the periodic (one-minute timer) state update.
OPEN moves to HALF_OPEN strictly more than 5 minutes after the last failure;
HALF_OPEN moves to CLOSED (resetting `failures`) strictly more than 10 minutes
after the last failure. -/
def updateCircuitBreaker (st : RLState) (now : Nat) : RLState :=
  let timeSinceLastFailure := now - st.circuitBreaker.lastFailureTime
  match st.circuitBreaker.state with
  | CBState.OPEN =>
    if timeSinceLastFailure > 5 * 60 * 1000 then
      { st with circuitBreaker := { st.circuitBreaker with state := CBState.HALF_OPEN } }
    else st
  | CBState.HALF_OPEN =>
    if timeSinceLastFailure > 10 * 60 * 1000 then
      { st with circuitBreaker := { failures := 0
                                    lastFailureTime := st.circuitBreaker.lastFailureTime
                                    state := CBState.CLOSED } }
    else st
  | CBState.CLOSED => st

/-- `recordFailure`: increment `failures`, stamp `lastFailureTime`, and open
the breaker when 5 failures accumulate in CLOSED or on any failure in
HALF_OPEN. -/
def recordFailure (st : RLState) (now : Nat) : RLState :=
  let cb1 : CircuitBreakerState :=
    { failures := st.circuitBreaker.failures + 1
      lastFailureTime := now
      state := st.circuitBreaker.state }
  let cb2 : CircuitBreakerState :=
    if 5 ≤ cb1.failures ∧ cb1.state = CBState.CLOSED then
      { cb1 with state := CBState.OPEN }
    else if cb1.state = CBState.HALF_OPEN then
      { cb1 with state := CBState.OPEN }
    else cb1
  { st with circuitBreaker := cb2 }

/-- Result record of `checkRateLimit`. -/
structure RateLimitResult where
  allowed : Bool
  reason : Option String := none
  retryAfter : Option Nat := none
deriving DecidableEq, Repr

def reasonCircuitOpen : String :=
  "Service temporarily unavailable due to high error rate. Please try again later."

def reasonBlocked : String :=
  "Your IP address has been temporarily blocked due to excessive requests."

def reasonPayloadTooLarge : String :=
  "Request payload too large. Please reduce the amount of data being sent."

def reasonTokenBucket : String :=
  "Too many requests too quickly. Please wait a moment and try again."

def reasonPerMinute : String :=
  "Rate limit exceeded: too many requests per minute."

def reasonPerHour : String :=
  "Rate limit exceeded: too many requests per hour."

def reasonSuspicious : String :=
  "Suspicious activity detected. Your IP has been temporarily blocked."

/-- `Math.ceil(ms / 1000)` on a nonnegative millisecond count. -/
def ceilDiv1000 (ms : Nat) : Nat := (ms + 999) / 1000

/-- The window log stored for `ip` (`this.requestLogs.get(ip) || []`). -/
def logsFor (st : RLState) (ip : String) : List RequestLog :=
  (mapGet st.requestLogs ip).getD []

/-- Number of logged requests with `timestamp > cutoff` (the
`logs.filter(log => log.timestamp > cutoff).length` computations). -/
def countSince (logs : List RequestLog) (cutoff : Nat) : Nat :=
  (logs.filter (fun log => decide (cutoff < log.timestamp))).length

/-- `checkRateLimit(requestSize, endpoint)`: the composite admission check of
`RateLimitService`, with the client identity `ip` (the source derives it from
`getClientIP()`) and the clock `now` made explicit. -/
def checkRateLimit (st : RLState) (ip : String) (now requestSize : Nat) (endpoint : String) :
    RateLimitResult × RLState :=
  if isCircuitBreakerOpen st then
    ({ allowed := false, reason := some reasonCircuitOpen, retryAfter := some 300 }, st)
  else
    let blocked := isIPBlocked st ip now
    if blocked.1 then
      let blockExpiry := (mapGet blocked.2.blockedIPs ip).getD 0
      ({ allowed := false
         reason := some reasonBlocked
         retryAfter := some (ceilDiv1000 (blockExpiry - now)) }, blocked.2)
    else if config.maxRequestSize < requestSize then
      ({ allowed := false, reason := some reasonPayloadTooLarge }, blocked.2)
    else
      let logs := logsFor blocked.2 ip
      let bucket := checkTokenBucket blocked.2 ip now
      if !bucket.1 then
        ({ allowed := false, reason := some reasonTokenBucket, retryAfter := some 60 }, bucket.2)
      else
        let oneMinuteAgo := now - 60 * 1000
        let oneHourAgo := now - 60 * 60 * 1000
        let requestsLastMinute := countSince logs oneMinuteAgo
        let requestsLastHour := countSince logs oneHourAgo
        if config.maxRequestsPerMinute ≤ requestsLastMinute then
          ({ allowed := false, reason := some reasonPerMinute, retryAfter := some 60 }, bucket.2)
        else if config.maxRequestsPerHour ≤ requestsLastHour then
          ({ allowed := false, reason := some reasonPerHour, retryAfter := some 3600 }, bucket.2)
        else if checkSuspiciousPatterns logs now then
          ({ allowed := false
             reason := some reasonSuspicious
             retryAfter := some (config.blockDurationMinutes * 60) }, blockIP bucket.2 ip now)
        else
          let requestLog : RequestLog := { timestamp := now, ip := ip, size := requestSize, endpoint := endpoint }
          ({ allowed := true },
           { bucket.2 with requestLogs := mapSet bucket.2.requestLogs ip (logs ++ [requestLog]) })

/-- Iterate `checkRateLimit` `n` times at a fixed instant, collecting results. -/
def runChecks (st : RLState) (ip : String) (now requestSize : Nat) (endpoint : String) :
    Nat → List RateLimitResult × RLState
  | 0 => ([], st)
  | n + 1 =>
    let r := checkRateLimit st ip now requestSize endpoint
    let rest := runChecks r.2 ip now requestSize endpoint n
    (r.1 :: rest.1, rest.2)

/-- Iterate the bare `checkTokenBucket` `n` times at a fixed instant. -/
def runBucketChecks (st : RLState) (ip : String) (now : Nat) : Nat → List Bool × RLState
  | 0 => ([], st)
  | n + 1 =>
    let r := checkTokenBucket st ip now
    let rest := runBucketChecks r.2 ip now n
    (r.1 :: rest.1, rest.2)

/-! ## geminiService.ts: `APIError`, `retryWithBackoff`, `getTravelAnalysis` -/

/-- The `APIError` class of geminiService.ts. -/
structure APIError where
  message : String
  statusCode : Option Nat := none
  retryAfter : Option Nat := none
  isRateLimited : Bool := false
deriving DecidableEq, Repr

/-- An error raised by the upstream call inside `retryWithBackoff`: either an
`APIError` or a generic JS `Error` carrying only a message. -/
inductive UpstreamError where
  | api (e : APIError)
  | generic (message : String)
deriving DecidableEq, Repr

/-- The fail-fast test of `retryWithBackoff`:
`error instanceof APIError && (error.isRateLimited || (error.statusCode && 400 <= statusCode < 500))`. -/
def isNonRetryable : UpstreamError → Bool
  | UpstreamError.api e =>
    e.isRateLimited ||
      (match e.statusCode with
       | some code => decide (400 ≤ code) && decide (code < 500)
       | none => false)
  | UpstreamError.generic _ => false

/-- The loop of `retryWithBackoff`, with the outcome of each attempt supplied
by `op` (attempt index ↦ response text or error) and the backoff delays
abstracted away (they only suspend, never change state).  `fuel` is
`maxRetries - attempt`.  Returns the outcome, the rate-limit state (the
terminal-failure branch calls `rateLimitService.recordFailure()`), and the
number of attempts made. -/
def retryLoop (op : Nat → Except UpstreamError String) (now : Nat) :
    Nat → Nat → RLState → Except UpstreamError String × RLState × Nat
  | attempt, fuel, st =>
    match op attempt with
    | Except.ok r => (Except.ok r, st, attempt + 1)
    | Except.error e =>
      if isNonRetryable e then
        (Except.error e, st, attempt + 1)
      else
        match fuel with
        | 0 => (Except.error e, recordFailure st now, attempt + 1)
        | fuel' + 1 => retryLoop op now (attempt + 1) fuel' st

/-- `retryWithBackoff(operation)` with the default `maxRetries = 3`. -/
def retryWithBackoff (op : Nat → Except UpstreamError String) (now : Nat) (st : RLState) :
    Except UpstreamError String × RLState × Nat :=
  retryLoop op now 0 3 st

def emptyResponseMessage : String :=
  "Il modello AI ha restituito una risposta vuota. Riprova."

def malformedResponseMessage : String :=
  "Il modello AI ha restituito una risposta malformata. Riprova."

def quotaMessage : String :=
  "Limite di richieste API raggiunto. Riprova tra qualche minuto."

def unreachableMessage : String :=
  "Non è stato possibile contattare il servizio AI. Riprova più tardi."

/-- `pat` occurs as a contiguous substring (JS `String.includes`). -/
def listContainsSub (pat : List Char) : List Char → Bool
  | [] => pat.isEmpty
  | c :: rest => pat.isPrefixOf (c :: rest) || listContainsSub pat rest

def strIncludes (s pat : String) : Bool := listContainsSub pat.data s.data

/-- The message sniffing of the final catch block of `getTravelAnalysis`:
`message.includes('quota') || message.includes('rate') || message.includes('limit')`. -/
def looksLikeQuotaError (msg : String) : Bool :=
  strIncludes msg "quota" || strIncludes msg "rate" || strIncludes msg "limit"

/-- Outcome of `getTravelAnalysis`: mock data (no API key), a parsed result,
or a thrown `APIError`. -/
inductive TAResult (α : Type) where
  | mockData
  | ok (value : α)
  | error (e : APIError)
deriving DecidableEq, Repr

/-- JS `String.trim` (structurally recursive version of `String.trim`). -/
def isWhite (c : Char) : Bool := c == ' ' || c == '\t' || c == '\n' || c == '\r'

def trimStr (s : String) : String :=
  String.mk (((s.data.dropWhile isWhite).reverse.dropWhile isWhite).reverse)

/-- `getTravelAnalysis(inputs)` of geminiService.ts, with the collaborators
made explicit: `hasApiKey` (`apiKey && ai`), the client identity `ip`, the
clock `now`, `requestSize` (`JSON.stringify(inputs).length`), the upstream
call `op` (attempt index ↦ Gemini response text or transport error), and
`parseCleanedJson` (the backtick-fence strip composed with `JSON.parse` and
the schema cast; `none` models a `SyntaxError`).  Returns the outcome, the
final rate-limit state, and the number of upstream attempts made.

The success path applies `recordFailure` because the source operation closure
runs `rateLimitService.recordFailure()` right after `generateContent`
succeeds (its comment reads "Reset failure count on success"); the catch
block applies `recordFailure` once more on every error reaching it. -/
def getTravelAnalysis {α : Type} (hasApiKey : Bool) (st : RLState) (ip : String)
    (now requestSize : Nat) (op : Nat → Except UpstreamError String)
    (parseCleanedJson : String → Option α) : TAResult α × RLState × Nat :=
  if !hasApiKey then
    (TAResult.mockData, st, 0)
  else
    let rl := checkRateLimit st ip now requestSize "gemini-api"
    if !rl.1.allowed then
      (TAResult.error
        { message := rl.1.reason.getD "Rate limit exceeded"
          statusCode := some 429
          retryAfter := rl.1.retryAfter
          isRateLimited := true }, rl.2, 0)
    else
      let attemptOut := retryWithBackoff op now rl.2
      match attemptOut.1 with
      | Except.ok text =>
        let st2 := recordFailure attemptOut.2.1 now
        let jsonText := trimStr text
        if jsonText = "" then
          (TAResult.error { message := emptyResponseMessage, statusCode := some 503 },
           recordFailure st2 now, attemptOut.2.2)
        else
          match parseCleanedJson jsonText with
          | some value => (TAResult.ok value, st2, attemptOut.2.2)
          | none =>
            (TAResult.error { message := malformedResponseMessage, statusCode := some 422 },
             recordFailure st2 now, attemptOut.2.2)
      | Except.error e =>
        let st2 := recordFailure attemptOut.2.1 now
        match e with
        | UpstreamError.api apiErr => (TAResult.error apiErr, st2, attemptOut.2.2)
        | UpstreamError.generic msg =>
          if looksLikeQuotaError msg then
            (TAResult.error
              { message := quotaMessage, statusCode := some 429
                retryAfter := some 300, isRateLimited := true }, st2, attemptOut.2.2)
          else
            (TAResult.error { message := unreachableMessage, statusCode := some 503 },
             st2, attemptOut.2.2)

/-! ## cityAutocompleteService.ts: `CacheManager`, `deduplicateResults`,
`getAutocompleteResults` -/

/-- `'city' | 'country' | 'region'`. -/
inductive CityType where
  | city
  | country
  | region
deriving DecidableEq, Repr

/-- `'local' | 'api' | 'cache' | 'mixed'`. -/
inductive Source where
  | Local
  | Api
  | Cache
  | Mixed
deriving DecidableEq, Repr

/-- Interface `CityResult` of cityService.ts. -/
structure CityResult where
  name : String
  country : String
  displayName : String
  type : CityType
  popularity : Nat
deriving DecidableEq, Repr

/-- Interface `EnhancedCityResult` (a `CityResult` plus coordinates, source,
confidence and the optional bookkeeping timestamp the cache stamps on write). -/
structure EnhancedCityResult where
  name : String
  country : String
  displayName : String
  type : CityType
  popularity : Nat
  coordinates : Option (ℚ × ℚ) := none
  source : Source
  confidence : ℚ
  timestamp : Option Nat := none
deriving DecidableEq, Repr

/-- The `AutocompleteError` class. -/
structure AutocompleteError where
  message : String
  code : String
  retryable : Bool := false
  retryAfter : Option Nat := none
deriving DecidableEq, Repr

/-- Interface `AutocompleteOptions`, with the defaults of
`getAutocompleteResults`. -/
structure AutocompleteOptions where
  maxResults : Nat := 8
  useExternalAPI : Bool := true
  cacheTimeout : Nat := 5 * 60 * 1000
  fallbackToLocal : Bool := true
  minQueryLength : Nat := 2
deriving DecidableEq, Repr

/-- One entry of the `CacheManager` map: the stored results and the expiry
instant (`timestamp: Date.now() + ttl`). -/
structure CacheEntry where
  data : List EnhancedCityResult
  timestamp : Nat
deriving DecidableEq, Repr

abbrev CacheState := List (String × CacheEntry)

/-- `CacheManager.set`: stamp every item with the write time and store the
entry with expiry `now + ttl`. -/
def cacheSet (c : CacheState) (key : String) (data : List EnhancedCityResult)
    (ttl now : Nat) : CacheState :=
  mapSet c key
    { data := data.map (fun item => { item with timestamp := some now })
      timestamp := now + ttl }

/-- `CacheManager.get`: an entry past its expiry is treated as absent and
deleted on the read. -/
def cacheGet (c : CacheState) (key : String) (now : Nat) :
    Option (List EnhancedCityResult) × CacheState :=
  match mapGet c key with
  | none => (none, c)
  | some entry =>
    if now > entry.timestamp then
      (none, mapDelete c key)
    else
      (some entry.data, c)

/-- JS `String.toLowerCase` on the ASCII range (structurally recursive
version of `String.toLower`). -/
def lowerChar (c : Char) : Char :=
  if 65 ≤ c.toNat ∧ c.toNat ≤ 90 then Char.ofNat (c.toNat + 32) else c

def toLowerStr (s : String) : String := String.mk (s.data.map lowerChar)

/-- The dedup key of `deduplicateResults`:
`\x7bname.toLowerCase()\x7d-\x7bcountry.toLowerCase()\x7d`. -/
def cityKey (r : EnhancedCityResult) : String :=
  toLowerStr r.name ++ "-" ++ toLowerStr r.country

/-- Replace the first element satisfying `p` (the source's
`deduplicated[existingIndex] = result` after `findIndex`). -/
def replaceFirst {α : Type} (p : α → Bool) (v : α) : List α → List α
  | [] => []
  | x :: xs => if p x then v :: xs else x :: replaceFirst p v xs

/-- The loop of `deduplicateResults`: `seen` is the key set and
`deduplicated` the output so far (the source pushes to both together, so
`seen` is exactly the key list of `deduplicated`). -/
def dedupGo : List String → List EnhancedCityResult → List EnhancedCityResult →
    List EnhancedCityResult
  | _, deduplicated, [] => deduplicated
  | seen, deduplicated, result :: rest =>
    let key := cityKey result
    if seen.contains key then
      match deduplicated.find? (fun r => cityKey r == key) with
      | some existing =>
        if existing.confidence < result.confidence then
          dedupGo seen (replaceFirst (fun r => cityKey r == key) result deduplicated) rest
        else
          dedupGo seen deduplicated rest
      | none => dedupGo seen deduplicated rest
    else
      dedupGo (seen ++ [key]) (deduplicated ++ [result]) rest

/-- `deduplicateResults`: one entry per case-normalized (name, country) key,
keeping the higher-confidence duplicate. -/
def deduplicateResults (results : List EnhancedCityResult) : List EnhancedCityResult :=
  dedupGo [] [] results

/-- The sort comparator of `getAutocompleteResults` (negative puts `a`
first): local exact matches before api results, then descending confidence,
then descending popularity. -/
def compareResults (a b : EnhancedCityResult) : ℚ :=
  if a.source = Source.Local ∧ b.source = Source.Api ∧ a.confidence = 100 then -1
  else if b.source = Source.Local ∧ a.source = Source.Api ∧ b.confidence = 100 then 1
  else
    let confidenceDiff := b.confidence - a.confidence
    if confidenceDiff ≠ 0 then confidenceDiff
    else (b.popularity : ℚ) - (a.popularity : ℚ)

/-- Stable insertion of `x` into `l` w.r.t. `le`. -/
def insertByLe {α : Type} (le : α → α → Bool) (x : α) : List α → List α
  | [] => [x]
  | y :: ys => if le x y then x :: y :: ys else y :: insertByLe le x ys

/-- Stable comparator sort (models ES2019 `Array.prototype.sort`, which is
specified as stable; element order is the only thing the comparator
determines). -/
def sortByLe {α : Type} (le : α → α → Bool) : List α → List α
  | [] => []
  | x :: xs => insertByLe le x (sortByLe le xs)

def sortResults (l : List EnhancedCityResult) : List EnhancedCityResult :=
  sortByLe (fun a b => decide (compareResults a b ≤ 0)) l

/-- The cache key: `autocomplete:$\x7bsanitizedQuery\x7d:$\x7bmaxResults\x7d`. -/
def cacheKeyFor (query : String) (maxResults : Nat) : String :=
  "autocomplete:" ++ toLowerStr (trimStr query) ++ ":" ++ toString maxResults

/-- The record returned by `getAutocompleteResults`. -/
structure AutocompleteResponse where
  results : List EnhancedCityResult
  source : Source
  error : Option AutocompleteError := none
  fromCache : Bool
deriving DecidableEq, Repr

/-- Promote a `CityResult` to an `EnhancedCityResult` with the given source
tag and confidence (the `.map(item => (\x7b ...item, source, confidence \x7d))`
of the orchestrator). -/
def toEnhanced (src : Source) (confidence : ℚ) (item : CityResult) : EnhancedCityResult :=
  { name := item.name
    country := item.country
    displayName := item.displayName
    type := item.type
    popularity := item.popularity
    source := src
    confidence := confidence }

/-- `getAutocompleteResults(query, options)` with the collaborators explicit:
`initialSuggestions` stands for `getInitialSuggestions(maxResults)`,
`localMatches` for `searchDestinations(query, \x7b maxResults \x7d)` (both
read-only local lookups), and `externalLookup` for the settled outcome of
`fetchFromExternalAPI(query, options)` (which only ever throws
`AutocompleteError`s).  Returns the response together with the updated cache,
or the propagated error. -/
def getAutocompleteResults (query : String) (opts : AutocompleteOptions)
    (c : CacheState) (now : Nat) (initialSuggestions localMatches : List CityResult)
    (externalLookup : Except AutocompleteError (List EnhancedCityResult)) :
    Except AutocompleteError (AutocompleteResponse × CacheState) :=
  if query = "" ∨ (trimStr query).length < opts.minQueryLength then
    Except.ok
      ({ results := initialSuggestions.map (toEnhanced Source.Local 100)
         source := Source.Local
         fromCache := false }, c)
  else
    let cacheKey := cacheKeyFor query opts.maxResults
    let cached := cacheGet c cacheKey now
    match cached.1 with
    | some cachedResults =>
      Except.ok ({ results := cachedResults, source := Source.Cache, fromCache := true }, cached.2)
    | none =>
      let localResults := localMatches.map (toEnhanced Source.Local 90)
      if !opts.useExternalAPI || opts.maxResults ≤ localResults.length then
        let enhancedLocalResults := localResults.take opts.maxResults
        Except.ok
          ({ results := enhancedLocalResults, source := Source.Local, fromCache := false },
           cacheSet cached.2 cacheKey enhancedLocalResults opts.cacheTimeout now)
      else
        match externalLookup with
        | Except.ok apiResults =>
          let allResults := localResults ++ apiResults
          let sortedResults := (sortResults (deduplicateResults allResults)).take opts.maxResults
          Except.ok
            ({ results := sortedResults
               source := if 0 < localResults.length then Source.Mixed else Source.Api
               fromCache := false },
             cacheSet cached.2 cacheKey sortedResults opts.cacheTimeout now)
        | Except.error e =>
          if opts.fallbackToLocal && decide (0 < localResults.length) then
            let enhancedLocalResults := localResults.take opts.maxResults
            Except.ok
              ({ results := enhancedLocalResults
                 source := Source.Local
                 error := some e
                 fromCache := false },
               cacheSet cached.2 cacheKey enhancedLocalResults opts.cacheTimeout now)
          else
            Except.error e

/-! ## Sample values used in concrete scenarios -/

/-- The "Roma" entry of the local catalog, promoted by the orchestrator with
`source: 'local', confidence: 90`. -/
def romaLocal : EnhancedCityResult :=
  { name := "Roma", country := "Italia", displayName := "Roma, Italia"
    type := CityType.city, popularity := 10, source := Source.Local, confidence := 90 }

/-- The same city as returned by the external geocoding call
(`source: 'api'`, confidence 85, the development-proxy constant). -/
def romaApi : EnhancedCityResult :=
  { name := "Roma", country := "Italia", displayName := "Roma, Italia"
    type := CityType.city, popularity := 10, source := Source.Api, confidence := 85 }

/-- The "Roma" `CityResult` of the local catalog (cityService.ts). -/
def romaCity : CityResult :=
  { name := "Roma", country := "Italia", displayName := "Roma, Italia"
    type := CityType.city, popularity := 10 }

/-- The `AutocompleteError` thrown by `fetchFromExternalAPI` on a fetch
failure. -/
def sampleNetworkError : AutocompleteError :=
  { message := "Network error", code := "NETWORK_ERROR", retryable := true }

/-! ## Helper lemmas -/

@[simp] theorem cbne_closed_open : (CBState.CLOSED = CBState.OPEN) ↔ False := by decide

@[simp] theorem cbne_closed_half : (CBState.CLOSED = CBState.HALF_OPEN) ↔ False := by decide

@[simp] theorem cbne_open_closed : (CBState.OPEN = CBState.CLOSED) ↔ False := by decide

@[simp] theorem cbne_open_half : (CBState.OPEN = CBState.HALF_OPEN) ↔ False := by decide

@[simp] theorem cbne_half_closed : (CBState.HALF_OPEN = CBState.CLOSED) ↔ False := by decide

@[simp] theorem cbne_half_open : (CBState.HALF_OPEN = CBState.OPEN) ↔ False := by decide

theorem mapGet_mapSet_self {α : Type} (m : List (String × α)) (k : String) (v : α) :
    mapGet (mapSet m k v) k = some v := by
  induction m with
  | nil => simp [mapGet, mapSet]
  | cons p rest ih =>
    by_cases h : p.1 == k
    · simp [mapGet, mapSet, h]
    · simp only [mapSet, h, if_false]
      simpa [mapGet, List.find?, h] using ih

theorem mapGet_mapDelete_self {α : Type} (m : List (String × α)) (k : String) :
    mapGet (mapDelete m k) k = none := by
  induction m with
  | nil => simp [mapGet, mapDelete]
  | cons p rest ih =>
    by_cases h : p.1 == k
    · simpa [mapDelete, h] using ih
    · simp only [mapDelete, List.filter] at ih ⊢
      simp [h, mapGet, List.find?, ih]

theorem isIPBlocked_requestLogs (st : RLState) (ip : String) (now : Nat) :
    (isIPBlocked st ip now).2.requestLogs = st.requestLogs := by
  unfold isIPBlocked
  cases mapGet st.blockedIPs ip with
  | none => rfl
  | some e => by_cases h : now > e <;> simp [h]

theorem isIPBlocked_tokenBuckets (st : RLState) (ip : String) (now : Nat) :
    (isIPBlocked st ip now).2.tokenBuckets = st.tokenBuckets := by
  unfold isIPBlocked
  cases mapGet st.blockedIPs ip with
  | none => rfl
  | some e => by_cases h : now > e <;> simp [h]

theorem isIPBlocked_circuitBreaker (st : RLState) (ip : String) (now : Nat) :
    (isIPBlocked st ip now).2.circuitBreaker = st.circuitBreaker := by
  unfold isIPBlocked
  cases mapGet st.blockedIPs ip with
  | none => rfl
  | some e => by_cases h : now > e <;> simp [h]

theorem checkTokenBucket_requestLogs (st : RLState) (ip : String) (now : Nat) :
    (checkTokenBucket st ip now).2.requestLogs = st.requestLogs := by
  unfold checkTokenBucket
  by_cases h : 1 ≤ refilledTokens (bucketOrNew st ip now) now <;> simp [h]

theorem checkTokenBucket_blockedIPs (st : RLState) (ip : String) (now : Nat) :
    (checkTokenBucket st ip now).2.blockedIPs = st.blockedIPs := by
  unfold checkTokenBucket
  by_cases h : 1 ≤ refilledTokens (bucketOrNew st ip now) now <;> simp [h]

theorem checkTokenBucket_circuitBreaker (st : RLState) (ip : String) (now : Nat) :
    (checkTokenBucket st ip now).2.circuitBreaker = st.circuitBreaker := by
  unfold checkTokenBucket
  by_cases h : 1 ≤ refilledTokens (bucketOrNew st ip now) now <;> simp [h]

theorem checkTokenBucket_true (st : RLState) (ip : String) (now : Nat)
    (h : (checkTokenBucket st ip now).1 = true) :
    1 ≤ refilledTokens (bucketOrNew st ip now) now ∧
    (checkTokenBucket st ip now).2.tokenBuckets =
      mapSet st.tokenBuckets ip
        { tokens := refilledTokens (bucketOrNew st ip now) now - 1, lastRefill := now } := by
  unfold checkTokenBucket at h ⊢
  by_cases hc : 1 ≤ refilledTokens (bucketOrNew st ip now) now
  · simp [hc]
  · simp [hc] at h

theorem blockIP_requestLogs (st : RLState) (ip : String) (now : Nat) :
    (blockIP st ip now).requestLogs = st.requestLogs := rfl

theorem blockIP_tokenBuckets (st : RLState) (ip : String) (now : Nat) :
    (blockIP st ip now).tokenBuckets = st.tokenBuckets := rfl

theorem blockIP_circuitBreaker (st : RLState) (ip : String) (now : Nat) :
    (blockIP st ip now).circuitBreaker = st.circuitBreaker := rfl

theorem recordFailure_failures (st : RLState) (now : Nat) :
    (recordFailure st now).circuitBreaker.failures = st.circuitBreaker.failures + 1 := by
  unfold recordFailure
  dsimp only
  split_ifs <;> rfl

theorem recordFailure_lastFailureTime (st : RLState) (now : Nat) :
    (recordFailure st now).circuitBreaker.lastFailureTime = now := by
  unfold recordFailure
  dsimp only
  split_ifs <;> rfl

/-! Branch characterisations of `checkRateLimit` (the first failing check
wins; each lemma fixes the outcome of one branch of the cascade). -/

theorem crl_circuitOpen (st : RLState) (ip : String) (now sz : Nat) (ep : String)
    (h : isCircuitBreakerOpen st = true) :
    checkRateLimit st ip now sz ep =
      ({ allowed := false, reason := some reasonCircuitOpen, retryAfter := some 300 }, st) := by
  simp [checkRateLimit, h]

theorem crl_blocked (st : RLState) (ip : String) (now sz : Nat) (ep : String)
    (h1 : isCircuitBreakerOpen st = false) (h2 : (isIPBlocked st ip now).1 = true) :
    checkRateLimit st ip now sz ep =
      ({ allowed := false
         reason := some reasonBlocked
         retryAfter := some (ceilDiv1000 (((mapGet (isIPBlocked st ip now).2.blockedIPs ip).getD 0) - now)) },
       (isIPBlocked st ip now).2) := by
  simp [checkRateLimit, h1, h2]

theorem crl_size (st : RLState) (ip : String) (now sz : Nat) (ep : String)
    (h1 : isCircuitBreakerOpen st = false) (h2 : (isIPBlocked st ip now).1 = false)
    (h3 : config.maxRequestSize < sz) :
    checkRateLimit st ip now sz ep =
      ({ allowed := false, reason := some reasonPayloadTooLarge, retryAfter := none },
       (isIPBlocked st ip now).2) := by
  simp [checkRateLimit, h1, h2, h3]

theorem crl_bucket (st : RLState) (ip : String) (now sz : Nat) (ep : String)
    (h1 : isCircuitBreakerOpen st = false) (h2 : (isIPBlocked st ip now).1 = false)
    (h3 : ¬ config.maxRequestSize < sz)
    (h4 : (checkTokenBucket (isIPBlocked st ip now).2 ip now).1 = false) :
    checkRateLimit st ip now sz ep =
      ({ allowed := false, reason := some reasonTokenBucket, retryAfter := some 60 },
       (checkTokenBucket (isIPBlocked st ip now).2 ip now).2) := by
  simp [checkRateLimit, h1, h2, h3, h4]

theorem crl_minute (st : RLState) (ip : String) (now sz : Nat) (ep : String)
    (h1 : isCircuitBreakerOpen st = false) (h2 : (isIPBlocked st ip now).1 = false)
    (h3 : ¬ config.maxRequestSize < sz)
    (h4 : (checkTokenBucket (isIPBlocked st ip now).2 ip now).1 = true)
    (h5 : config.maxRequestsPerMinute ≤ countSince (logsFor (isIPBlocked st ip now).2 ip) (now - 60 * 1000)) :
    checkRateLimit st ip now sz ep =
      ({ allowed := false, reason := some reasonPerMinute, retryAfter := some 60 },
       (checkTokenBucket (isIPBlocked st ip now).2 ip now).2) := by
  simp [checkRateLimit, h1, h2, h3, h4, h5]

theorem crl_hour (st : RLState) (ip : String) (now sz : Nat) (ep : String)
    (h1 : isCircuitBreakerOpen st = false) (h2 : (isIPBlocked st ip now).1 = false)
    (h3 : ¬ config.maxRequestSize < sz)
    (h4 : (checkTokenBucket (isIPBlocked st ip now).2 ip now).1 = true)
    (h5 : ¬ config.maxRequestsPerMinute ≤ countSince (logsFor (isIPBlocked st ip now).2 ip) (now - 60 * 1000))
    (h6 : config.maxRequestsPerHour ≤ countSince (logsFor (isIPBlocked st ip now).2 ip) (now - 60 * 60 * 1000)) :
    checkRateLimit st ip now sz ep =
      ({ allowed := false, reason := some reasonPerHour, retryAfter := some 3600 },
       (checkTokenBucket (isIPBlocked st ip now).2 ip now).2) := by
  simp [checkRateLimit, h1, h2, h3, h4, h5, h6]

theorem crl_suspicious (st : RLState) (ip : String) (now sz : Nat) (ep : String)
    (h1 : isCircuitBreakerOpen st = false) (h2 : (isIPBlocked st ip now).1 = false)
    (h3 : ¬ config.maxRequestSize < sz)
    (h4 : (checkTokenBucket (isIPBlocked st ip now).2 ip now).1 = true)
    (h5 : ¬ config.maxRequestsPerMinute ≤ countSince (logsFor (isIPBlocked st ip now).2 ip) (now - 60 * 1000))
    (h6 : ¬ config.maxRequestsPerHour ≤ countSince (logsFor (isIPBlocked st ip now).2 ip) (now - 60 * 60 * 1000))
    (h7 : checkSuspiciousPatterns (logsFor (isIPBlocked st ip now).2 ip) now = true) :
    checkRateLimit st ip now sz ep =
      ({ allowed := false
         reason := some reasonSuspicious
         retryAfter := some (config.blockDurationMinutes * 60) },
       blockIP (checkTokenBucket (isIPBlocked st ip now).2 ip now).2 ip now) := by
  simp [checkRateLimit, h1, h2, h3, h4, h5, h6, h7]

theorem crl_allowed (st : RLState) (ip : String) (now sz : Nat) (ep : String)
    (h1 : isCircuitBreakerOpen st = false) (h2 : (isIPBlocked st ip now).1 = false)
    (h3 : ¬ config.maxRequestSize < sz)
    (h4 : (checkTokenBucket (isIPBlocked st ip now).2 ip now).1 = true)
    (h5 : ¬ config.maxRequestsPerMinute ≤ countSince (logsFor (isIPBlocked st ip now).2 ip) (now - 60 * 1000))
    (h6 : ¬ config.maxRequestsPerHour ≤ countSince (logsFor (isIPBlocked st ip now).2 ip) (now - 60 * 60 * 1000))
    (h7 : checkSuspiciousPatterns (logsFor (isIPBlocked st ip now).2 ip) now = false) :
    checkRateLimit st ip now sz ep =
      ({ allowed := true },
       { (checkTokenBucket (isIPBlocked st ip now).2 ip now).2 with
           requestLogs :=
             mapSet (checkTokenBucket (isIPBlocked st ip now).2 ip now).2.requestLogs ip
               (logsFor (isIPBlocked st ip now).2 ip ++
                 [{ timestamp := now, ip := ip, size := sz, endpoint := ep }]) }) := by
  simp [checkRateLimit, h1, h2, h3, h4, h5, h6, h7]

theorem checkRateLimit_circuitBreaker (st : RLState) (ip : String) (now sz : Nat) (ep : String) :
    (checkRateLimit st ip now sz ep).2.circuitBreaker = st.circuitBreaker := by
  by_cases h1 : isCircuitBreakerOpen st = true
  · rw [crl_circuitOpen st ip now sz ep h1]
  · replace h1 : isCircuitBreakerOpen st = false := by
      cases h : isCircuitBreakerOpen st
      · rfl
      · exact absurd h h1
    by_cases h2 : (isIPBlocked st ip now).1 = true
    · rw [crl_blocked st ip now sz ep h1 h2]
      exact isIPBlocked_circuitBreaker st ip now
    · replace h2 : (isIPBlocked st ip now).1 = false := by
        cases h : (isIPBlocked st ip now).1
        · rfl
        · exact absurd h h2
      by_cases h3 : config.maxRequestSize < sz
      · rw [crl_size st ip now sz ep h1 h2 h3]
        exact isIPBlocked_circuitBreaker st ip now
      · by_cases h4 : (checkTokenBucket (isIPBlocked st ip now).2 ip now).1 = true
        · by_cases h5 : config.maxRequestsPerMinute ≤ countSince (logsFor (isIPBlocked st ip now).2 ip) (now - 60 * 1000)
          · rw [crl_minute st ip now sz ep h1 h2 h3 h4 h5]
            rw [checkTokenBucket_circuitBreaker, isIPBlocked_circuitBreaker]
          · by_cases h6 : config.maxRequestsPerHour ≤ countSince (logsFor (isIPBlocked st ip now).2 ip) (now - 60 * 60 * 1000)
            · rw [crl_hour st ip now sz ep h1 h2 h3 h4 h5 h6]
              rw [checkTokenBucket_circuitBreaker, isIPBlocked_circuitBreaker]
            · by_cases h7 : checkSuspiciousPatterns (logsFor (isIPBlocked st ip now).2 ip) now = true
              · rw [crl_suspicious st ip now sz ep h1 h2 h3 h4 h5 h6 h7]
                rw [blockIP_circuitBreaker, checkTokenBucket_circuitBreaker, isIPBlocked_circuitBreaker]
              · replace h7 : checkSuspiciousPatterns (logsFor (isIPBlocked st ip now).2 ip) now = false := by
                  cases h : checkSuspiciousPatterns (logsFor (isIPBlocked st ip now).2 ip) now
                  · rfl
                  · exact absurd h h7
                rw [crl_allowed st ip now sz ep h1 h2 h3 h4 h5 h6 h7]
                show (checkTokenBucket (isIPBlocked st ip now).2 ip now).2.circuitBreaker = _
                rw [checkTokenBucket_circuitBreaker, isIPBlocked_circuitBreaker]
        · replace h4 : (checkTokenBucket (isIPBlocked st ip now).2 ip now).1 = false := by
            cases h : (checkTokenBucket (isIPBlocked st ip now).2 ip now).1
            · rfl
            · exact absurd h h4
          rw [crl_bucket st ip now sz ep h1 h2 h3 h4]
          rw [checkTokenBucket_circuitBreaker, isIPBlocked_circuitBreaker]

/-- A request against a service with empty maps (any breaker not OPEN) is
admitted, appending the log entry and consuming one token of the freshly
created bucket. -/
theorem admit_fresh (cb : CircuitBreakerState) (h : cb.state ≠ CBState.OPEN)
    (ip : String) (now sz : Nat) (ep : String) (hsz : sz ≤ 50000) :
    checkRateLimit
        { requestLogs := [], tokenBuckets := [], blockedIPs := [], circuitBreaker := cb }
        ip now sz ep =
      ({ allowed := true },
       { requestLogs := [(ip, [{ timestamp := now, ip := ip, size := sz, endpoint := ep }])]
         tokenBuckets := [(ip, { tokens := 19, lastRefill := now })]
         blockedIPs := []
         circuitBreaker := cb }) := by
  have hb : (cb.state == CBState.OPEN) = false := beq_eq_false_iff_ne.mpr h
  norm_num [checkRateLimit, isCircuitBreakerOpen, hb, isIPBlocked, mapGet, mapSet,
    checkTokenBucket, bucketOrNew, refilledTokens, checkSuspiciousPatterns, logsFor, countSince,
    config, List.find?, min_def]
  omega

/-! ## Claim theorems -/

/-- C1: `checkRateLimit` evaluates its checks in the order circuit breaker,
identity block, payload size, token bucket, per-minute count, per-hour count,
suspicious pattern; the first failing check determines the result
(retryAfter 300 / remaining block time / none / 60 / 60 / 3600 / 900
respectively), and only when every check passes is the request appended to
the window log and `\x7b allowed: true \x7d` returned. -/
theorem admission_check_order (st : RLState) (ip : String) (now requestSize : Nat)
    (endpoint : String) :
    (isCircuitBreakerOpen st = true →
      checkRateLimit st ip now requestSize endpoint =
        ({ allowed := false, reason := some reasonCircuitOpen, retryAfter := some 300 }, st)) ∧
    (isCircuitBreakerOpen st = false → (isIPBlocked st ip now).1 = true →
      checkRateLimit st ip now requestSize endpoint =
        ({ allowed := false
           reason := some reasonBlocked
           retryAfter := some (ceilDiv1000 (((mapGet (isIPBlocked st ip now).2.blockedIPs ip).getD 0) - now)) },
         (isIPBlocked st ip now).2)) ∧
    (isCircuitBreakerOpen st = false → (isIPBlocked st ip now).1 = false →
      50000 < requestSize →
      checkRateLimit st ip now requestSize endpoint =
        ({ allowed := false, reason := some reasonPayloadTooLarge, retryAfter := none },
         (isIPBlocked st ip now).2)) ∧
    (isCircuitBreakerOpen st = false → (isIPBlocked st ip now).1 = false →
      requestSize ≤ 50000 →
      (checkTokenBucket (isIPBlocked st ip now).2 ip now).1 = false →
      checkRateLimit st ip now requestSize endpoint =
        ({ allowed := false, reason := some reasonTokenBucket, retryAfter := some 60 },
         (checkTokenBucket (isIPBlocked st ip now).2 ip now).2)) ∧
    (isCircuitBreakerOpen st = false → (isIPBlocked st ip now).1 = false →
      requestSize ≤ 50000 →
      (checkTokenBucket (isIPBlocked st ip now).2 ip now).1 = true →
      10 ≤ countSince (logsFor (isIPBlocked st ip now).2 ip) (now - 60 * 1000) →
      checkRateLimit st ip now requestSize endpoint =
        ({ allowed := false, reason := some reasonPerMinute, retryAfter := some 60 },
         (checkTokenBucket (isIPBlocked st ip now).2 ip now).2)) ∧
    (isCircuitBreakerOpen st = false → (isIPBlocked st ip now).1 = false →
      requestSize ≤ 50000 →
      (checkTokenBucket (isIPBlocked st ip now).2 ip now).1 = true →
      countSince (logsFor (isIPBlocked st ip now).2 ip) (now - 60 * 1000) < 10 →
      100 ≤ countSince (logsFor (isIPBlocked st ip now).2 ip) (now - 60 * 60 * 1000) →
      checkRateLimit st ip now requestSize endpoint =
        ({ allowed := false, reason := some reasonPerHour, retryAfter := some 3600 },
         (checkTokenBucket (isIPBlocked st ip now).2 ip now).2)) ∧
    (isCircuitBreakerOpen st = false → (isIPBlocked st ip now).1 = false →
      requestSize ≤ 50000 →
      (checkTokenBucket (isIPBlocked st ip now).2 ip now).1 = true →
      countSince (logsFor (isIPBlocked st ip now).2 ip) (now - 60 * 1000) < 10 →
      countSince (logsFor (isIPBlocked st ip now).2 ip) (now - 60 * 60 * 1000) < 100 →
      checkSuspiciousPatterns (logsFor (isIPBlocked st ip now).2 ip) now = true →
      checkRateLimit st ip now requestSize endpoint =
        ({ allowed := false, reason := some reasonSuspicious, retryAfter := some 900 },
         blockIP (checkTokenBucket (isIPBlocked st ip now).2 ip now).2 ip now)) ∧
    (isCircuitBreakerOpen st = false → (isIPBlocked st ip now).1 = false →
      requestSize ≤ 50000 →
      (checkTokenBucket (isIPBlocked st ip now).2 ip now).1 = true →
      countSince (logsFor (isIPBlocked st ip now).2 ip) (now - 60 * 1000) < 10 →
      countSince (logsFor (isIPBlocked st ip now).2 ip) (now - 60 * 60 * 1000) < 100 →
      checkSuspiciousPatterns (logsFor (isIPBlocked st ip now).2 ip) now = false →
      checkRateLimit st ip now requestSize endpoint =
        ({ allowed := true },
         { (checkTokenBucket (isIPBlocked st ip now).2 ip now).2 with
             requestLogs :=
               mapSet (checkTokenBucket (isIPBlocked st ip now).2 ip now).2.requestLogs ip
                 (logsFor (isIPBlocked st ip now).2 ip ++
                   [{ timestamp := now, ip := ip, size := requestSize, endpoint := endpoint }]) })) := by
  have e1 : config.maxRequestSize = 50000 := rfl
  have e2 : config.maxRequestsPerMinute = 10 := rfl
  have e3 : config.maxRequestsPerHour = 100 := rfl
  refine ⟨?_, ?_, ?_, ?_, ?_, ?_, ?_, ?_⟩
  · intro h1
    exact crl_circuitOpen st ip now requestSize endpoint h1
  · intro h1 h2
    exact crl_blocked st ip now requestSize endpoint h1 h2
  · intro h1 h2 h3
    exact crl_size st ip now requestSize endpoint h1 h2 h3
  · intro h1 h2 h3 h4
    exact crl_bucket st ip now requestSize endpoint h1 h2 (by omega) h4
  · intro h1 h2 h3 h4 h5
    exact crl_minute st ip now requestSize endpoint h1 h2 (by omega) h4 h5
  · intro h1 h2 h3 h4 h5 h6
    exact crl_hour st ip now requestSize endpoint h1 h2 (by omega) h4 (by omega) h6
  · intro h1 h2 h3 h4 h5 h6 h7
    exact crl_suspicious st ip now requestSize endpoint h1 h2 (by omega) h4 (by omega) (by omega) h7
  · intro h1 h2 h3 h4 h5 h6 h7
    exact crl_allowed st ip now requestSize endpoint h1 h2 (by omega) h4 (by omega) (by omega) h7

theorem admission_check_order_witness :
    checkRateLimit initialState "client_1" 3600000 100 "api" =
      ({ allowed := true },
       { (checkTokenBucket (isIPBlocked initialState "client_1" 3600000).2 "client_1" 3600000).2 with
           requestLogs :=
             mapSet (checkTokenBucket (isIPBlocked initialState "client_1" 3600000).2 "client_1" 3600000).2.requestLogs
               "client_1"
               (logsFor (isIPBlocked initialState "client_1" 3600000).2 "client_1" ++
                 [{ timestamp := 3600000, ip := "client_1", size := 100, endpoint := "api" }]) }) := by
  apply (admission_check_order initialState "client_1" 3600000 100 "api").2.2.2.2.2.2.2
  · decide
  · decide
  · decide
  · norm_num [checkTokenBucket, bucketOrNew, refilledTokens, isIPBlocked, mapGet,
      initialState, config, min_def]
  · decide
  · decide
  · decide

/-- C4 counterexample: with the breaker OPEN since time 0, calling the
admission check at 301000 ms (more than 5 minutes later) does NOT move the
breaker to HALF_OPEN (`checkRateLimit` never mutates the breaker; only the
periodic `updateCircuitBreaker` timer does), and even `updateCircuitBreaker`
at exactly 5 minutes is a no-op (the source condition is strict). -/
theorem admit_does_not_halfopen_cex :
    (checkRateLimit
        { requestLogs := [], tokenBuckets := [], blockedIPs := []
          circuitBreaker := { failures := 5, lastFailureTime := 0, state := CBState.OPEN } }
        "client_1" 301000 100 "api").2.circuitBreaker.state ≠ CBState.HALF_OPEN ∧
    (updateCircuitBreaker
        { requestLogs := [], tokenBuckets := [], blockedIPs := []
          circuitBreaker := { failures := 5, lastFailureTime := 0, state := CBState.OPEN } }
        300000).circuitBreaker.state ≠ CBState.HALF_OPEN := by
  constructor
  · decide
  · decide

/-- C4 (amended): from a CLOSED breaker with zero failures, 5 consecutive
`recordFailure` calls open the breaker; once OPEN, the transition to
HALF_OPEN happens when the periodic `updateCircuitBreaker` runs strictly
more than 5 minutes after the last failure (the admission check itself never
changes the breaker); one `recordFailure` while HALF_OPEN reopens it
immediately. -/
theorem circuit_breaker_lifecycle :
    (∀ (st : RLState) (t1 t2 t3 t4 t5 : Nat),
      st.circuitBreaker.failures = 0 → st.circuitBreaker.state = CBState.CLOSED →
      (recordFailure (recordFailure (recordFailure (recordFailure (recordFailure st t1) t2) t3) t4) t5).circuitBreaker.state
        = CBState.OPEN) ∧
    (∀ (st : RLState) (now : Nat),
      st.circuitBreaker.state = CBState.OPEN →
      5 * 60 * 1000 < now - st.circuitBreaker.lastFailureTime →
      (updateCircuitBreaker st now).circuitBreaker.state = CBState.HALF_OPEN) ∧
    (∀ (st : RLState) (now : Nat),
      st.circuitBreaker.state = CBState.HALF_OPEN →
      (recordFailure st now).circuitBreaker.state = CBState.OPEN) ∧
    (∀ (st : RLState) (ip : String) (now requestSize : Nat) (endpoint : String),
      (checkRateLimit st ip now requestSize endpoint).2.circuitBreaker = st.circuitBreaker) := by
  refine ⟨?_, ?_, ?_, ?_⟩
  · intro st t1 t2 t3 t4 t5 h0 hs
    simp [recordFailure, h0, hs]
  · intro st now hs ht
    simp [updateCircuitBreaker, hs, ht]
  · intro st now hs
    simp [recordFailure, hs]
  · intro st ip now requestSize endpoint
    exact checkRateLimit_circuitBreaker st ip now requestSize endpoint

theorem circuit_breaker_lifecycle_witness :
    (recordFailure (recordFailure (recordFailure (recordFailure (recordFailure initialState 1) 2) 3) 4) 5).circuitBreaker.state
      = CBState.OPEN ∧
    (updateCircuitBreaker
        { initialState with circuitBreaker := { failures := 5, lastFailureTime := 0, state := CBState.OPEN } }
        300001).circuitBreaker.state = CBState.HALF_OPEN ∧
    (recordFailure
        { initialState with circuitBreaker := { failures := 5, lastFailureTime := 300000, state := CBState.HALF_OPEN } }
        300500).circuitBreaker.state = CBState.OPEN ∧
    (checkRateLimit initialState "client_1" 3600000 100 "api").2.circuitBreaker = initialState.circuitBreaker :=
  ⟨circuit_breaker_lifecycle.1 initialState 1 2 3 4 5 rfl rfl,
   circuit_breaker_lifecycle.2.1 _ 300001 rfl (by norm_num),
   circuit_breaker_lifecycle.2.2.1 _ 300500 rfl,
   circuit_breaker_lifecycle.2.2.2 initialState "client_1" 3600000 100 "api"⟩

/-- C2 (code bug): there is no `recordSuccess` anywhere in the repository;
after a successful upstream call the orchestrator runs
`rateLimitService.recordFailure()` (source comment: "Reset failure count on
success"), which INCREMENTS `failures` instead of resetting it — here a
single fully successful call from a fresh service leaves `failures = 1`, and
a success while HALF_OPEN flips the breaker to OPEN. -/
theorem success_path_records_failure :
    (getTravelAnalysis (α := Unit) true initialState "client_1" 3600000 100
        (fun _ => Except.ok "response") (fun _ => some ())).1 = TAResult.ok () ∧
    (getTravelAnalysis (α := Unit) true initialState "client_1" 3600000 100
        (fun _ => Except.ok "response") (fun _ => some ())).2.1.circuitBreaker.failures = 1 ∧
    (getTravelAnalysis (α := Unit) true
        { requestLogs := [], tokenBuckets := [], blockedIPs := []
          circuitBreaker := { failures := 0, lastFailureTime := 0, state := CBState.HALF_OPEN } }
        "client_1" 3600000 100
        (fun _ => Except.ok "response") (fun _ => some ())).2.1.circuitBreaker.state = CBState.OPEN := by
  have hclosed := admit_fresh { failures := 0, lastFailureTime := 0, state := CBState.CLOSED }
    (by decide) "client_1" 3600000 100 "gemini-api" (by norm_num)
  have hhalf := admit_fresh { failures := 0, lastFailureTime := 0, state := CBState.HALF_OPEN }
    (by decide) "client_1" 3600000 100 "gemini-api" (by norm_num)
  have htrim : trimStr "response" = "response" := by decide
  have hne : ("response" : String) ≠ "" := by decide
  refine ⟨?_, ?_, ?_⟩ <;>
    simp [getTravelAnalysis, initialState, hclosed, hhalf, retryWithBackoff, retryLoop,
      htrim, hne, recordFailure]

/-- C3 counterexample: a malformed (unparsable) upstream response does
change the circuit breaker failure count — from a fresh service one
malformed response leaves `failures = 2` (once from the success-path
`recordFailure`, once from the catch block), not 0 as the claim states. -/
theorem malformed_response_counts_failures_cex :
    (getTravelAnalysis (α := Unit) true initialState "client_1" 3600000 100
        (fun _ => Except.ok "not-json") (fun _ => none)).2.1.circuitBreaker.failures ≠
      initialState.circuitBreaker.failures := by
  have hadm := admit_fresh { failures := 0, lastFailureTime := 0, state := CBState.CLOSED }
    (by decide) "client_1" 3600000 100 "gemini-api" (by norm_num)
  have htrim : trimStr "not-json" = "not-json" := by decide
  have hne : ("not-json" : String) ≠ "" := by decide
  simp [getTravelAnalysis, initialState, hadm, retryWithBackoff, retryLoop, htrim, hne,
    recordFailure]

/-- C3 (amended): when the transport succeeds on the first attempt but the
response fails JSON parsing, the orchestrator surfaces the distinct
malformed-response `APIError` (422) without any retry (exactly one upstream
attempt), BUT it does record the event against the circuit breaker — twice:
`failureCount` ends at its pre-call value plus 2 (the success-path
`recordFailure` and the catch-block `recordFailure`). -/
theorem malformed_response_behavior {α : Type} (st : RLState) (ip : String)
    (now requestSize : Nat) (op : Nat → Except UpstreamError String)
    (parseCleanedJson : String → Option α) (text : String)
    (hAllowed : (checkRateLimit st ip now requestSize "gemini-api").1.allowed = true)
    (hOp : op 0 = Except.ok text) (hNe : trimStr text ≠ "")
    (hParse : parseCleanedJson (trimStr text) = none) :
    (getTravelAnalysis true st ip now requestSize op parseCleanedJson).1 =
      TAResult.error { message := malformedResponseMessage, statusCode := some 422 } ∧
    (getTravelAnalysis true st ip now requestSize op parseCleanedJson).2.2 = 1 ∧
    (getTravelAnalysis true st ip now requestSize op parseCleanedJson).2.1.circuitBreaker.failures =
      st.circuitBreaker.failures + 2 := by
  refine ⟨?_, ?_, ?_⟩ <;>
    simp [getTravelAnalysis, hAllowed, retryWithBackoff, retryLoop, hOp, hNe, hParse,
      recordFailure_failures, checkRateLimit_circuitBreaker]

theorem malformed_response_behavior_witness :
    (getTravelAnalysis (α := Unit) true initialState "client_1" 3600000 100
        (fun _ => Except.ok "bad") (fun _ => none)).2.2 = 1 ∧
    (getTravelAnalysis (α := Unit) true initialState "client_1" 3600000 100
        (fun _ => Except.ok "bad") (fun _ => none)).2.1.circuitBreaker.failures =
      initialState.circuitBreaker.failures + 2 := by
  have hadm := admit_fresh { failures := 0, lastFailureTime := 0, state := CBState.CLOSED }
    (by decide) "client_1" 3600000 100 "gemini-api" (by norm_num)
  have h := malformed_response_behavior (α := Unit) initialState "client_1" 3600000 100
      (fun _ => Except.ok "bad") (fun _ => none) "bad"
      (by rw [show initialState =
            { requestLogs := [], tokenBuckets := [], blockedIPs := []
              circuitBreaker := { failures := 0, lastFailureTime := 0, state := CBState.CLOSED } }
          from rfl, hadm])
      rfl (by decide) rfl
  exact ⟨h.2.1, h.2.2⟩

/-- C6: the refill step of the token bucket never decreases the token count
and never raises it above the capacity 20, and the bucket stored after the
check (refill plus optional consumption of one token) satisfies
`0 ≤ tokens ≤ 20` with `lastRefill` updated to `now` — assuming the stored
bucket satisfied the invariant and its `lastRefill` is not in the future. -/
theorem token_bucket_invariant (st : RLState) (ip : String) (now : Nat)
    (hInv : ∀ b, mapGet st.tokenBuckets ip = some b →
      0 ≤ b.tokens ∧ b.tokens ≤ 20 ∧ b.lastRefill ≤ now) :
    (bucketOrNew st ip now).tokens ≤ refilledTokens (bucketOrNew st ip now) now ∧
    refilledTokens (bucketOrNew st ip now) now ≤ 20 ∧
    (∀ b, mapGet (checkTokenBucket st ip now).2.tokenBuckets ip = some b →
      0 ≤ b.tokens ∧ b.tokens ≤ 20 ∧ b.lastRefill = now) := by
  have h20 : ((config.bucketCapacity : Nat) : ℚ) = 20 := by norm_num [config]
  have hb : 0 ≤ (bucketOrNew st ip now).tokens ∧ (bucketOrNew st ip now).tokens ≤ 20 ∧
      (bucketOrNew st ip now).lastRefill ≤ now := by
    cases h : mapGet st.tokenBuckets ip with
    | none => refine ⟨?_, ?_, ?_⟩ <;> simp [bucketOrNew, h, config]
    | some b =>
      have := hInv b h
      simpa [bucketOrNew, h] using this
  have hadd : (0:ℚ) ≤ (((now : Int) - ((bucketOrNew st ip now).lastRefill : Int) : Int) : ℚ) / 1000 * config.refillRate := by
    have h1 : (0 : Int) ≤ (now : Int) - ((bucketOrNew st ip now).lastRefill : Int) := by
      have := hb.2.2
      omega
    have h2 : (0:ℚ) ≤ (((now : Int) - ((bucketOrNew st ip now).lastRefill : Int) : Int) : ℚ) := by
      exact_mod_cast h1
    have h3 : (0:ℚ) ≤ config.refillRate := by norm_num [config]
    positivity
  have hmono : (bucketOrNew st ip now).tokens ≤ refilledTokens (bucketOrNew st ip now) now := by
    simp only [refilledTokens, h20]
    exact le_min hb.2.1 (le_add_of_nonneg_right hadd)
  have hcap : refilledTokens (bucketOrNew st ip now) now ≤ 20 := by
    simp only [refilledTokens, h20]
    exact min_le_left _ _
  have hpos : 0 ≤ refilledTokens (bucketOrNew st ip now) now := le_trans hb.1 hmono
  refine ⟨hmono, hcap, ?_⟩
  intro b hb'
  by_cases hc : 1 ≤ refilledTokens (bucketOrNew st ip now) now
  · have hrw : (checkTokenBucket st ip now).2.tokenBuckets =
        mapSet st.tokenBuckets ip
          { tokens := refilledTokens (bucketOrNew st ip now) now - 1, lastRefill := now } := by
      simp only [checkTokenBucket]
      rw [if_pos hc]
    rw [hrw, mapGet_mapSet_self] at hb'
    have hb2 := Option.some.inj hb'
    subst hb2
    refine ⟨?_, ?_, rfl⟩
    · show (0:ℚ) ≤ refilledTokens (bucketOrNew st ip now) now - 1
      linarith
    · show refilledTokens (bucketOrNew st ip now) now - 1 ≤ 20
      linarith
  · have hrw : (checkTokenBucket st ip now).2.tokenBuckets =
        mapSet st.tokenBuckets ip
          { tokens := refilledTokens (bucketOrNew st ip now) now, lastRefill := now } := by
      simp only [checkTokenBucket]
      rw [if_neg hc]
    rw [hrw, mapGet_mapSet_self] at hb'
    have hb2 := Option.some.inj hb'
    subst hb2
    exact ⟨hpos, hcap, rfl⟩

theorem token_bucket_invariant_witness :
    refilledTokens (bucketOrNew initialState "client_1" 3600000) 3600000 ≤ 20 :=
  (token_bucket_invariant initialState "client_1" 3600000
    (by intro b h; simp [mapGet, initialState] at h)).2.1

/-- C7: `set(key, results, ttl)` followed by `get(key)` at any time up to
`ttl` later returns the stored results (each item stamped with the write
time in its bookkeeping `timestamp` field, all other fields — the results
themselves — unchanged, as the third conjunct records); a `get(key)`
strictly after expiry returns absent and removes the entry on that read. -/
theorem cache_ttl_roundtrip (c : CacheState) (key : String)
    (results : List EnhancedCityResult) (ttl t0 t1 : Nat) :
    (t1 ≤ t0 + ttl →
      cacheGet (cacheSet c key results ttl t0) key t1 =
        (some (results.map (fun r => { r with timestamp := some t0 })),
         cacheSet c key results ttl t0)) ∧
    (t0 + ttl < t1 →
      (cacheGet (cacheSet c key results ttl t0) key t1).1 = none ∧
      mapGet (cacheGet (cacheSet c key results ttl t0) key t1).2 key = none) ∧
    (results.map (fun r => { r with timestamp := some t0 })).map (fun r => { r with timestamp := none })
      = results.map (fun r => { r with timestamp := none }) := by
  have hget : mapGet (cacheSet c key results ttl t0) key =
      some { data := results.map (fun item => { item with timestamp := some t0 })
             timestamp := t0 + ttl } := by
    simp only [cacheSet]
    exact mapGet_mapSet_self c key _
  refine ⟨?_, ?_, ?_⟩
  · intro h
    simp [cacheGet, hget, Nat.not_lt.mpr h]
  · intro h
    have hrw : cacheGet (cacheSet c key results ttl t0) key t1 =
        (none, mapDelete (cacheSet c key results ttl t0) key) := by
      simp only [cacheGet, hget]
      rw [if_pos h]
    rw [hrw]
    exact ⟨rfl, mapGet_mapDelete_self _ key⟩
  · simp only [List.map_map]
    rfl

theorem cache_ttl_roundtrip_witness :
    cacheGet (cacheSet [] "k" [romaLocal] 1000 500) "k" 1500 =
      (some ([romaLocal].map (fun r => { r with timestamp := some 500 })),
       cacheSet [] "k" [romaLocal] 1000 500) :=
  (cache_ttl_roundtrip [] "k" [romaLocal] 1000 500 1500).1 (by norm_num)

/-- C10: an admission check that passes the token bucket but is then
rejected by the per-minute, per-hour or suspicious-pattern check has already
consumed one token (the stored bucket holds the refilled count minus one,
with `lastRefill` stamped to `now`) while the window-log append is withheld;
rejections at the circuit-breaker, block-table or payload-size steps leave
the bucket map untouched. -/
theorem rejection_consumes_token (st : RLState) (ip : String) (now requestSize : Nat)
    (endpoint : String) :
    ((checkRateLimit st ip now requestSize endpoint).1.reason = some reasonPerMinute ∨
     (checkRateLimit st ip now requestSize endpoint).1.reason = some reasonPerHour ∨
     (checkRateLimit st ip now requestSize endpoint).1.reason = some reasonSuspicious →
      mapGet (checkRateLimit st ip now requestSize endpoint).2.tokenBuckets ip =
        some { tokens := refilledTokens (bucketOrNew (isIPBlocked st ip now).2 ip now) now - 1
               lastRefill := now } ∧
      1 ≤ refilledTokens (bucketOrNew (isIPBlocked st ip now).2 ip now) now ∧
      (checkRateLimit st ip now requestSize endpoint).2.requestLogs = st.requestLogs) ∧
    ((checkRateLimit st ip now requestSize endpoint).1.reason = some reasonCircuitOpen ∨
     (checkRateLimit st ip now requestSize endpoint).1.reason = some reasonBlocked ∨
     (checkRateLimit st ip now requestSize endpoint).1.reason = some reasonPayloadTooLarge →
      (checkRateLimit st ip now requestSize endpoint).2.tokenBuckets = st.tokenBuckets) := by
  by_cases h1 : isCircuitBreakerOpen st = true
  · rw [crl_circuitOpen st ip now requestSize endpoint h1]
    constructor
    · intro h
      rcases h with h | h | h <;> exact absurd (Option.some.inj h) (by decide)
    · intro _
      rfl
  · replace h1 : isCircuitBreakerOpen st = false := by
      cases h : isCircuitBreakerOpen st
      · rfl
      · exact absurd h h1
    by_cases h2 : (isIPBlocked st ip now).1 = true
    · rw [crl_blocked st ip now requestSize endpoint h1 h2]
      constructor
      · intro h
        rcases h with h | h | h <;> exact absurd (Option.some.inj h) (by decide)
      · intro _
        exact isIPBlocked_tokenBuckets st ip now
    · replace h2 : (isIPBlocked st ip now).1 = false := by
        cases h : (isIPBlocked st ip now).1
        · rfl
        · exact absurd h h2
      by_cases h3 : config.maxRequestSize < requestSize
      · rw [crl_size st ip now requestSize endpoint h1 h2 h3]
        constructor
        · intro h
          rcases h with h | h | h <;> exact absurd (Option.some.inj h) (by decide)
        · intro _
          exact isIPBlocked_tokenBuckets st ip now
      · by_cases h4 : (checkTokenBucket (isIPBlocked st ip now).2 ip now).1 = true
        · have hbkt := checkTokenBucket_true (isIPBlocked st ip now).2 ip now h4
          have hbktGet : mapGet (checkTokenBucket (isIPBlocked st ip now).2 ip now).2.tokenBuckets ip =
              some { tokens := refilledTokens (bucketOrNew (isIPBlocked st ip now).2 ip now) now - 1
                     lastRefill := now } := by
            rw [hbkt.2]
            exact mapGet_mapSet_self _ ip _
          have hbktLogs : (checkTokenBucket (isIPBlocked st ip now).2 ip now).2.requestLogs = st.requestLogs := by
            rw [checkTokenBucket_requestLogs, isIPBlocked_requestLogs]
          by_cases h5 : config.maxRequestsPerMinute ≤ countSince (logsFor (isIPBlocked st ip now).2 ip) (now - 60 * 1000)
          · rw [crl_minute st ip now requestSize endpoint h1 h2 h3 h4 h5]
            refine ⟨fun _ => ⟨hbktGet, hbkt.1, hbktLogs⟩, ?_⟩
            intro h
            rcases h with h | h | h <;> exact absurd (Option.some.inj h) (by decide)
          · by_cases h6 : config.maxRequestsPerHour ≤ countSince (logsFor (isIPBlocked st ip now).2 ip) (now - 60 * 60 * 1000)
            · rw [crl_hour st ip now requestSize endpoint h1 h2 h3 h4 h5 h6]
              refine ⟨fun _ => ⟨hbktGet, hbkt.1, hbktLogs⟩, ?_⟩
              intro h
              rcases h with h | h | h <;> exact absurd (Option.some.inj h) (by decide)
            · by_cases h7 : checkSuspiciousPatterns (logsFor (isIPBlocked st ip now).2 ip) now = true
              · rw [crl_suspicious st ip now requestSize endpoint h1 h2 h3 h4 h5 h6 h7]
                constructor
                · intro _
                  refine ⟨?_, hbkt.1, ?_⟩
                  · rw [blockIP_tokenBuckets]
                    exact hbktGet
                  · rw [blockIP_requestLogs]
                    exact hbktLogs
                · intro h
                  rcases h with h | h | h <;> exact absurd (Option.some.inj h) (by decide)
              · replace h7 : checkSuspiciousPatterns (logsFor (isIPBlocked st ip now).2 ip) now = false := by
                  cases h : checkSuspiciousPatterns (logsFor (isIPBlocked st ip now).2 ip) now
                  · rfl
                  · exact absurd h h7
                rw [crl_allowed st ip now requestSize endpoint h1 h2 h3 h4 h5 h6 h7]
                constructor
                · intro h
                  rcases h with h | h | h <;> exact Option.noConfusion h
                · intro h
                  rcases h with h | h | h <;> exact Option.noConfusion h
        · replace h4 : (checkTokenBucket (isIPBlocked st ip now).2 ip now).1 = false := by
            cases h : (checkTokenBucket (isIPBlocked st ip now).2 ip now).1
            · rfl
            · exact absurd h h4
          rw [crl_bucket st ip now requestSize endpoint h1 h2 h3 h4]
          constructor
          · intro h
            rcases h with h | h | h <;> exact absurd (Option.some.inj h) (by decide)
          · intro h
            rcases h with h | h | h <;> exact absurd (Option.some.inj h) (by decide)

theorem rejection_consumes_token_witness :
    mapGet (checkRateLimit
        { requestLogs := [("client_1", List.replicate 10
            { timestamp := 3600000, ip := "client_1", size := 100, endpoint := "api" })]
          tokenBuckets := []
          blockedIPs := []
          circuitBreaker := { failures := 0, lastFailureTime := 0, state := CBState.CLOSED } }
        "client_1" 3600000 100 "api").2.tokenBuckets "client_1" =
      some { tokens := refilledTokens
               (bucketOrNew
                 (isIPBlocked
                   { requestLogs := [("client_1", List.replicate 10
                       { timestamp := 3600000, ip := "client_1", size := 100, endpoint := "api" })]
                     tokenBuckets := []
                     blockedIPs := []
                     circuitBreaker := { failures := 0, lastFailureTime := 0, state := CBState.CLOSED } }
                   "client_1" 3600000).2
                 "client_1" 3600000) 3600000 - 1
             lastRefill := 3600000 } := by
  have hreason : (checkRateLimit
      { requestLogs := [("client_1", List.replicate 10
          { timestamp := 3600000, ip := "client_1", size := 100, endpoint := "api" })]
        tokenBuckets := []
        blockedIPs := []
        circuitBreaker := { failures := 0, lastFailureTime := 0, state := CBState.CLOSED } }
      "client_1" 3600000 100 "api").1.reason = some reasonPerMinute := by
    norm_num [checkRateLimit, isCircuitBreakerOpen, isIPBlocked, mapGet, mapSet, checkTokenBucket,
      bucketOrNew, refilledTokens, checkSuspiciousPatterns, logsFor, countSince, config,
      List.find?, List.replicate, min_def]
  exact ((rejection_consumes_token _ "client_1" 3600000 100 "api").1 (Or.inl hreason)).1

/-- C8: when the external lookup fails for a non-trivial query with a cache
miss and fewer local results than requested, the orchestrator returns the
local results with `source = Local` and the error attached (not thrown) as
long as `fallbackToLocal` holds and local results exist; with no local
results the error is propagated to the caller. -/
theorem fallback_on_external_failure (query : String) (opts : AutocompleteOptions)
    (c : CacheState) (now : Nat) (initialSuggestions localMatches : List CityResult)
    (e : AutocompleteError)
    (hq : ¬(query = "" ∨ (trimStr query).length < opts.minQueryLength))
    (hmiss : (cacheGet c (cacheKeyFor query opts.maxResults) now).1 = none)
    (hext : opts.useExternalAPI = true)
    (hlen : localMatches.length < opts.maxResults) :
    (opts.fallbackToLocal = true → localMatches ≠ [] →
      getAutocompleteResults query opts c now initialSuggestions localMatches (Except.error e) =
        Except.ok
          ({ results := (localMatches.map (toEnhanced Source.Local 90)).take opts.maxResults
             source := Source.Local
             error := some e
             fromCache := false },
           cacheSet (cacheGet c (cacheKeyFor query opts.maxResults) now).2
             (cacheKeyFor query opts.maxResults)
             ((localMatches.map (toEnhanced Source.Local 90)).take opts.maxResults)
             opts.cacheTimeout now)) ∧
    (localMatches = [] →
      getAutocompleteResults query opts c now initialSuggestions localMatches (Except.error e) =
        Except.error e) := by
  constructor
  · intro hfb hne
    have h0 : 0 < localMatches.length := List.length_pos.mpr hne
    simp only [getAutocompleteResults]
    rw [if_neg hq]
    simp [hmiss, hext, List.length_map, Nat.not_le.mpr hlen, hfb, h0]
  · intro hempty
    subst hempty
    simp only [getAutocompleteResults]
    rw [if_neg hq]
    simp [hmiss, hext, Nat.not_le.mpr hlen]
    omega

theorem fallback_on_external_failure_witness :
    getAutocompleteResults "ro"
        { maxResults := 8, useExternalAPI := true, cacheTimeout := 300000
          fallbackToLocal := true, minQueryLength := 2 }
        [] 0 [] [romaCity] (Except.error sampleNetworkError) =
      Except.ok
        ({ results := ([romaCity].map (toEnhanced Source.Local 90)).take 8
           source := Source.Local
           error := some sampleNetworkError
           fromCache := false },
         cacheSet (cacheGet [] (cacheKeyFor "ro" 8) 0).2 (cacheKeyFor "ro" 8)
           (([romaCity].map (toEnhanced Source.Local 90)).take 8) 300000 0) := by
  have h := fallback_on_external_failure "ro"
      { maxResults := 8, useExternalAPI := true, cacheTimeout := 300000
        fallbackToLocal := true, minQueryLength := 2 }
      [] 0 [] [romaCity] sampleNetworkError
      (by decide) rfl rfl (by norm_num)
  exact h.1 rfl (by decide)

/-- Draining a bucket holding `j ≤ 20` whole tokens with `n` instantaneous
checks: the first `min n j` succeed, the rest fail, leaving `j - min n j`
tokens. -/
theorem runBucketChecks_drain (ip : String) (now : Nat) :
    ∀ (n j : Nat), j ≤ 20 →
      runBucketChecks
        { requestLogs := [], tokenBuckets := [(ip, { tokens := (j : ℚ), lastRefill := now })]
          blockedIPs := []
          circuitBreaker := { failures := 0, lastFailureTime := 0, state := CBState.CLOSED } }
        ip now n =
      (List.replicate (min n j) true ++ List.replicate (n - j) false,
       { requestLogs := [], tokenBuckets := [(ip, { tokens := ((j - min n j : Nat) : ℚ), lastRefill := now })]
         blockedIPs := []
         circuitBreaker := { failures := 0, lastFailureTime := 0, state := CBState.CLOSED } }) := by
  intro n
  induction n with
  | zero =>
    intro j hj
    simp [runBucketChecks]
  | succ n ih =>
    intro j hj
    cases j with
    | zero =>
      have hstep : checkTokenBucket
          { requestLogs := [], tokenBuckets := [(ip, { tokens := ((0:Nat) : ℚ), lastRefill := now })]
            blockedIPs := []
            circuitBreaker := { failures := 0, lastFailureTime := 0, state := CBState.CLOSED } }
          ip now =
        (false,
         { requestLogs := [], tokenBuckets := [(ip, { tokens := ((0:Nat) : ℚ), lastRefill := now })]
           blockedIPs := []
           circuitBreaker := { failures := 0, lastFailureTime := 0, state := CBState.CLOSED } }) := by
        norm_num [checkTokenBucket, bucketOrNew, refilledTokens, mapGet, mapSet, List.find?,
          config, min_def]
      have ih0 := ih 0 (by norm_num)
      norm_num at hstep ih0 ⊢
      simp [runBucketChecks, hstep, ih0, List.replicate]
    | succ k =>
      have hcapQ : ((k : ℚ) + 1) ≤ 20 := by exact_mod_cast hj
      have h1k : (1 : ℚ) ≤ (k : ℚ) + 1 := by
        have := Nat.cast_nonneg (α := ℚ) k
        linarith
      have hstep : checkTokenBucket
          { requestLogs := [], tokenBuckets := [(ip, { tokens := ((k + 1 : Nat) : ℚ), lastRefill := now })]
            blockedIPs := []
            circuitBreaker := { failures := 0, lastFailureTime := 0, state := CBState.CLOSED } }
          ip now =
        (true,
         { requestLogs := [], tokenBuckets := [(ip, { tokens := ((k : Nat) : ℚ), lastRefill := now })]
           blockedIPs := []
           circuitBreaker := { failures := 0, lastFailureTime := 0, state := CBState.CLOSED } }) := by
        norm_num [checkTokenBucket, bucketOrNew, refilledTokens, mapGet, mapSet, List.find?,
          config, min_eq_right hcapQ, h1k]
      have ihk := ih k (by omega)
      simp only [runBucketChecks, hstep, ihk]
      simp [Nat.succ_min_succ, Nat.succ_sub_succ, List.replicate]

/-- The full 21-instantaneous-requests run from a fresh service: the first 5
are admitted, the 6th trips the suspicious-pattern detector (blocking the
identity for 15 minutes), and the remaining 15 are rejected as blocked. -/
theorem burst_run :
    runChecks initialState "client_1" 3600000 100 "api" 21 =
      (List.replicate 5 { allowed := true } ++
         ({ allowed := false, reason := some reasonSuspicious, retryAfter := some 900 } ::
           List.replicate 15 { allowed := false, reason := some reasonBlocked, retryAfter := some 900 }),
       { requestLogs := [("client_1",
           [{ timestamp := 3600000, ip := "client_1", size := 100, endpoint := "api" },
            { timestamp := 3600000, ip := "client_1", size := 100, endpoint := "api" },
            { timestamp := 3600000, ip := "client_1", size := 100, endpoint := "api" },
            { timestamp := 3600000, ip := "client_1", size := 100, endpoint := "api" },
            { timestamp := 3600000, ip := "client_1", size := 100, endpoint := "api" }])]
         tokenBuckets := [("client_1", { tokens := 14, lastRefill := 3600000 })]
         blockedIPs := [("client_1", 4500000)]
         circuitBreaker := { failures := 0, lastFailureTime := 0, state := CBState.CLOSED } }) := by
  have s1 := admit_fresh { failures := 0, lastFailureTime := 0, state := CBState.CLOSED }
    (by decide) "client_1" 3600000 100 "api" (by norm_num)
  have s2 : checkRateLimit
      { requestLogs := [("client_1",
          [{ timestamp := 3600000, ip := "client_1", size := 100, endpoint := "api" }])]
        tokenBuckets := [("client_1", { tokens := 19, lastRefill := 3600000 })]
        blockedIPs := []
        circuitBreaker := { failures := 0, lastFailureTime := 0, state := CBState.CLOSED } }
      "client_1" 3600000 100 "api" =
    ({ allowed := true },
     { requestLogs := [("client_1",
         [{ timestamp := 3600000, ip := "client_1", size := 100, endpoint := "api" },
          { timestamp := 3600000, ip := "client_1", size := 100, endpoint := "api" }])]
       tokenBuckets := [("client_1", { tokens := 18, lastRefill := 3600000 })]
       blockedIPs := []
       circuitBreaker := { failures := 0, lastFailureTime := 0, state := CBState.CLOSED } }) := by
    norm_num [checkRateLimit, isCircuitBreakerOpen, isIPBlocked, mapGet, mapSet, mapDelete,
      checkTokenBucket, bucketOrNew, refilledTokens, checkSuspiciousPatterns, logsFor, countSince,
      blockIP, config, List.find?, List.filter, min_def]
  have s3 : checkRateLimit
      { requestLogs := [("client_1",
          [{ timestamp := 3600000, ip := "client_1", size := 100, endpoint := "api" },
           { timestamp := 3600000, ip := "client_1", size := 100, endpoint := "api" }])]
        tokenBuckets := [("client_1", { tokens := 18, lastRefill := 3600000 })]
        blockedIPs := []
        circuitBreaker := { failures := 0, lastFailureTime := 0, state := CBState.CLOSED } }
      "client_1" 3600000 100 "api" =
    ({ allowed := true },
     { requestLogs := [("client_1",
         [{ timestamp := 3600000, ip := "client_1", size := 100, endpoint := "api" },
          { timestamp := 3600000, ip := "client_1", size := 100, endpoint := "api" },
          { timestamp := 3600000, ip := "client_1", size := 100, endpoint := "api" }])]
       tokenBuckets := [("client_1", { tokens := 17, lastRefill := 3600000 })]
       blockedIPs := []
       circuitBreaker := { failures := 0, lastFailureTime := 0, state := CBState.CLOSED } }) := by
    norm_num [checkRateLimit, isCircuitBreakerOpen, isIPBlocked, mapGet, mapSet, mapDelete,
      checkTokenBucket, bucketOrNew, refilledTokens, checkSuspiciousPatterns, logsFor, countSince,
      blockIP, config, List.find?, List.filter, min_def]
  have s4 : checkRateLimit
      { requestLogs := [("client_1",
          [{ timestamp := 3600000, ip := "client_1", size := 100, endpoint := "api" },
           { timestamp := 3600000, ip := "client_1", size := 100, endpoint := "api" },
           { timestamp := 3600000, ip := "client_1", size := 100, endpoint := "api" }])]
        tokenBuckets := [("client_1", { tokens := 17, lastRefill := 3600000 })]
        blockedIPs := []
        circuitBreaker := { failures := 0, lastFailureTime := 0, state := CBState.CLOSED } }
      "client_1" 3600000 100 "api" =
    ({ allowed := true },
     { requestLogs := [("client_1",
         [{ timestamp := 3600000, ip := "client_1", size := 100, endpoint := "api" },
          { timestamp := 3600000, ip := "client_1", size := 100, endpoint := "api" },
          { timestamp := 3600000, ip := "client_1", size := 100, endpoint := "api" },
          { timestamp := 3600000, ip := "client_1", size := 100, endpoint := "api" }])]
       tokenBuckets := [("client_1", { tokens := 16, lastRefill := 3600000 })]
       blockedIPs := []
       circuitBreaker := { failures := 0, lastFailureTime := 0, state := CBState.CLOSED } }) := by
    norm_num [checkRateLimit, isCircuitBreakerOpen, isIPBlocked, mapGet, mapSet, mapDelete,
      checkTokenBucket, bucketOrNew, refilledTokens, checkSuspiciousPatterns, logsFor, countSince,
      blockIP, config, List.find?, List.filter, min_def]
  have s5 : checkRateLimit
      { requestLogs := [("client_1",
          [{ timestamp := 3600000, ip := "client_1", size := 100, endpoint := "api" },
           { timestamp := 3600000, ip := "client_1", size := 100, endpoint := "api" },
           { timestamp := 3600000, ip := "client_1", size := 100, endpoint := "api" },
           { timestamp := 3600000, ip := "client_1", size := 100, endpoint := "api" }])]
        tokenBuckets := [("client_1", { tokens := 16, lastRefill := 3600000 })]
        blockedIPs := []
        circuitBreaker := { failures := 0, lastFailureTime := 0, state := CBState.CLOSED } }
      "client_1" 3600000 100 "api" =
    ({ allowed := true },
     { requestLogs := [("client_1",
         [{ timestamp := 3600000, ip := "client_1", size := 100, endpoint := "api" },
          { timestamp := 3600000, ip := "client_1", size := 100, endpoint := "api" },
          { timestamp := 3600000, ip := "client_1", size := 100, endpoint := "api" },
          { timestamp := 3600000, ip := "client_1", size := 100, endpoint := "api" },
          { timestamp := 3600000, ip := "client_1", size := 100, endpoint := "api" }])]
       tokenBuckets := [("client_1", { tokens := 15, lastRefill := 3600000 })]
       blockedIPs := []
       circuitBreaker := { failures := 0, lastFailureTime := 0, state := CBState.CLOSED } }) := by
    norm_num [checkRateLimit, isCircuitBreakerOpen, isIPBlocked, mapGet, mapSet, mapDelete,
      checkTokenBucket, bucketOrNew, refilledTokens, checkSuspiciousPatterns, logsFor, countSince,
      blockIP, config, List.find?, List.filter, min_def]
  have s6 : checkRateLimit
      { requestLogs := [("client_1",
          [{ timestamp := 3600000, ip := "client_1", size := 100, endpoint := "api" },
           { timestamp := 3600000, ip := "client_1", size := 100, endpoint := "api" },
           { timestamp := 3600000, ip := "client_1", size := 100, endpoint := "api" },
           { timestamp := 3600000, ip := "client_1", size := 100, endpoint := "api" },
           { timestamp := 3600000, ip := "client_1", size := 100, endpoint := "api" }])]
        tokenBuckets := [("client_1", { tokens := 15, lastRefill := 3600000 })]
        blockedIPs := []
        circuitBreaker := { failures := 0, lastFailureTime := 0, state := CBState.CLOSED } }
      "client_1" 3600000 100 "api" =
    ({ allowed := false, reason := some reasonSuspicious, retryAfter := some 900 },
     { requestLogs := [("client_1",
         [{ timestamp := 3600000, ip := "client_1", size := 100, endpoint := "api" },
          { timestamp := 3600000, ip := "client_1", size := 100, endpoint := "api" },
          { timestamp := 3600000, ip := "client_1", size := 100, endpoint := "api" },
          { timestamp := 3600000, ip := "client_1", size := 100, endpoint := "api" },
          { timestamp := 3600000, ip := "client_1", size := 100, endpoint := "api" }])]
       tokenBuckets := [("client_1", { tokens := 14, lastRefill := 3600000 })]
       blockedIPs := [("client_1", 4500000)]
       circuitBreaker := { failures := 0, lastFailureTime := 0, state := CBState.CLOSED } }) := by
    norm_num [checkRateLimit, isCircuitBreakerOpen, isIPBlocked, mapGet, mapSet, mapDelete,
      checkTokenBucket, bucketOrNew, refilledTokens, checkSuspiciousPatterns, logsFor, countSince,
      blockIP, config, List.find?, List.filter, min_def]
  have s7 : checkRateLimit
      { requestLogs := [("client_1",
          [{ timestamp := 3600000, ip := "client_1", size := 100, endpoint := "api" },
           { timestamp := 3600000, ip := "client_1", size := 100, endpoint := "api" },
           { timestamp := 3600000, ip := "client_1", size := 100, endpoint := "api" },
           { timestamp := 3600000, ip := "client_1", size := 100, endpoint := "api" },
           { timestamp := 3600000, ip := "client_1", size := 100, endpoint := "api" }])]
        tokenBuckets := [("client_1", { tokens := 14, lastRefill := 3600000 })]
        blockedIPs := [("client_1", 4500000)]
        circuitBreaker := { failures := 0, lastFailureTime := 0, state := CBState.CLOSED } }
      "client_1" 3600000 100 "api" =
    ({ allowed := false, reason := some reasonBlocked, retryAfter := some 900 },
     { requestLogs := [("client_1",
         [{ timestamp := 3600000, ip := "client_1", size := 100, endpoint := "api" },
          { timestamp := 3600000, ip := "client_1", size := 100, endpoint := "api" },
          { timestamp := 3600000, ip := "client_1", size := 100, endpoint := "api" },
          { timestamp := 3600000, ip := "client_1", size := 100, endpoint := "api" },
          { timestamp := 3600000, ip := "client_1", size := 100, endpoint := "api" }])]
       tokenBuckets := [("client_1", { tokens := 14, lastRefill := 3600000 })]
       blockedIPs := [("client_1", 4500000)]
       circuitBreaker := { failures := 0, lastFailureTime := 0, state := CBState.CLOSED } }) := by
    norm_num [checkRateLimit, isCircuitBreakerOpen, isIPBlocked, mapGet, ceilDiv1000,
      config, List.find?]
  simp [runChecks, initialState, s1, s2, s3, s4, s5, s6, s7, List.replicate]

/-- C5 counterexample: 21 admission checks at the same instant from a fresh
service do NOT admit the first 20 — through the full `checkRateLimit`
cascade only 5 are admitted before the suspicious-pattern check fires. -/
theorem burst_21_requests_cex :
    ((runChecks initialState "client_1" 3600000 100 "api" 21).1.map (fun r => r.allowed)) ≠
      List.replicate 20 true ++ [false] := by
  rw [burst_run]
  decide

/-- C5 (amended): at the token-bucket primitive alone (capacity 20, refill
0.5/s), 21 instantaneous checks succeed exactly on the first 20 and fail on
the 21st; through the full `checkRateLimit`, only the first 5 requests are
admitted — the 6th is rejected by suspicious-pattern detection (retryAfter
900, blocking the identity for 15 minutes) and the 7th through 21st are
rejected as blocked (retryAfter 900). -/
theorem burst_21_requests_behavior :
    (runBucketChecks initialState "client_1" 3600000 21).1 =
      List.replicate 20 true ++ [false] ∧
    (runChecks initialState "client_1" 3600000 100 "api" 21).1 =
      List.replicate 5 { allowed := true } ++
        ({ allowed := false, reason := some reasonSuspicious, retryAfter := some 900 } ::
          List.replicate 15 { allowed := false, reason := some reasonBlocked, retryAfter := some 900 }) := by
  constructor
  · have s0 : checkTokenBucket initialState "client_1" 3600000 =
        (true,
         { requestLogs := [], tokenBuckets := [("client_1", { tokens := ((19:Nat) : ℚ), lastRefill := 3600000 })]
           blockedIPs := []
           circuitBreaker := { failures := 0, lastFailureTime := 0, state := CBState.CLOSED } }) := by
      norm_num [checkTokenBucket, bucketOrNew, refilledTokens, mapGet, mapSet, List.find?,
        initialState, config, min_def]
    have hdrain := runBucketChecks_drain "client_1" 3600000 20 19 (by norm_num)
    calc (runBucketChecks initialState "client_1" 3600000 21).1
        = (checkTokenBucket initialState "client_1" 3600000).1 ::
            (runBucketChecks (checkTokenBucket initialState "client_1" 3600000).2
              "client_1" 3600000 20).1 := rfl
      _ = true ::
            (runBucketChecks
              { requestLogs := []
                tokenBuckets := [("client_1", { tokens := ((19:Nat) : ℚ), lastRefill := 3600000 })]
                blockedIPs := []
                circuitBreaker := { failures := 0, lastFailureTime := 0, state := CBState.CLOSED } }
              "client_1" 3600000 20).1 := by rw [s0]
      _ = true :: (List.replicate (min 20 19) true ++ List.replicate (20 - 19) false) := by
            rw [hdrain]
      _ = List.replicate 20 true ++ [false] := by decide
  · rw [burst_run]

/-! Lemmas about `replaceFirst` and the `deduplicateResults` loop. -/

theorem replaceFirst_mem {α : Type} (p : α → Bool) (v : α) :
    ∀ (l : List α) (x : α), x ∈ replaceFirst p v l → x ∈ l ∨ x = v := by
  intro l
  induction l with
  | nil => intro x hx; exact absurd hx (List.not_mem_nil x)
  | cons y ys ih =>
    intro x hx
    by_cases hp : p y = true
    · simp only [replaceFirst, hp, if_true] at hx
      rcases List.mem_cons.mp hx with rfl | hx'
      · exact Or.inr rfl
      · exact Or.inl (List.mem_cons_of_mem y hx')
    · simp only [replaceFirst, hp, if_false] at hx
      rcases List.mem_cons.mp hx with rfl | hx'
      · exact Or.inl (List.mem_cons_self x ys)
      · rcases ih x hx' with h | h
        · exact Or.inl (List.mem_cons_of_mem y h)
        · exact Or.inr h

theorem mem_replaceFirst_of_not {α : Type} (p : α → Bool) (v : α) :
    ∀ (l : List α) (x : α), x ∈ l → p x = false → x ∈ replaceFirst p v l := by
  intro l
  induction l with
  | nil => intro x hx; exact absurd hx (List.not_mem_nil x)
  | cons y ys ih =>
    intro x hx hpx
    by_cases hp : p y = true
    · simp only [replaceFirst, hp, if_true]
      rcases List.mem_cons.mp hx with rfl | hx'
      · rw [hp] at hpx; cases hpx
      · exact List.mem_cons_of_mem v hx'
    · simp only [replaceFirst, hp, if_false]
      rcases List.mem_cons.mp hx with rfl | hx'
      · exact List.mem_cons_self x _
      · exact List.mem_cons_of_mem y (ih x hx' hpx)

theorem self_mem_replaceFirst {α : Type} (p : α → Bool) (v : α) :
    ∀ (l : List α), (∃ x ∈ l, p x = true) → v ∈ replaceFirst p v l := by
  intro l
  induction l with
  | nil => rintro ⟨x, hx, _⟩; exact absurd hx (List.not_mem_nil x)
  | cons y ys ih =>
    rintro ⟨x, hx, hpx⟩
    by_cases hp : p y = true
    · simp only [replaceFirst, hp, if_true]
      exact List.mem_cons_self v ys
    · simp only [replaceFirst, hp, if_false]
      rcases List.mem_cons.mp hx with rfl | hx'
      · rw [hpx] at hp; cases hp rfl
      · exact List.mem_cons_of_mem y (ih ⟨x, hx', hpx⟩)

theorem replaceFirst_map {α β : Type} (p : α → Bool) (v : α) (f : α → β)
    (h : ∀ x, p x = true → f x = f v) :
    ∀ (l : List α), (replaceFirst p v l).map f = l.map f := by
  intro l
  induction l with
  | nil => rfl
  | cons y ys ih =>
    by_cases hp : p y = true
    · simp only [replaceFirst, hp, if_true, List.map_cons, h y hp]
    · simp only [replaceFirst, hp, if_false, Bool.false_eq_true, List.map_cons, ih]

theorem dedupGo_mem_sub :
    ∀ (rest : List EnhancedCityResult) (seen : List String) (acc : List EnhancedCityResult)
      (r : EnhancedCityResult), r ∈ dedupGo seen acc rest → r ∈ acc ∨ r ∈ rest := by
  intro rest
  induction rest with
  | nil =>
    intro seen acc r h
    simp only [dedupGo] at h
    exact Or.inl h
  | cons res rest ih =>
    intro seen acc r h
    simp only [dedupGo] at h
    cases hc : seen.contains (cityKey res) with
    | true =>
      rw [hc] at h
      simp only [if_true] at h
      cases hfind : acc.find? (fun x => cityKey x == cityKey res) with
      | some existing =>
        simp only [hfind] at h
        by_cases hconf : existing.confidence < res.confidence
        · rw [if_pos hconf] at h
          rcases ih _ _ r h with h' | h'
          · rcases replaceFirst_mem _ res acc r h' with h'' | h''
            · exact Or.inl h''
            · exact Or.inr (h'' ▸ List.mem_cons_self res rest)
          · exact Or.inr (List.mem_cons_of_mem res h')
        · rw [if_neg hconf] at h
          rcases ih _ _ r h with h' | h'
          · exact Or.inl h'
          · exact Or.inr (List.mem_cons_of_mem res h')
      | none =>
        simp only [hfind] at h
        rcases ih _ _ r h with h' | h'
        · exact Or.inl h'
        · exact Or.inr (List.mem_cons_of_mem res h')
    | false =>
      rw [hc] at h
      simp only [Bool.false_eq_true, if_false] at h
      rcases ih _ _ r h with h' | h'
      · rcases List.mem_append.mp h' with h'' | h''
        · exact Or.inl h''
        · exact Or.inr (List.mem_cons.mpr (Or.inl (List.mem_singleton.mp h'')))
      · exact Or.inr (List.mem_cons_of_mem res h')

theorem dedupGo_keys_mono :
    ∀ (rest : List EnhancedCityResult) (seen : List String) (acc : List EnhancedCityResult)
      (k : String), k ∈ acc.map cityKey → k ∈ (dedupGo seen acc rest).map cityKey := by
  intro rest
  induction rest with
  | nil =>
    intro seen acc k hk
    simpa only [dedupGo] using hk
  | cons res rest ih =>
    intro seen acc k hk
    simp only [dedupGo]
    cases hc : seen.contains (cityKey res) with
    | true =>
      simp only [if_true]
      cases hfind : acc.find? (fun x => cityKey x == cityKey res) with
      | some existing =>
        dsimp only
        by_cases hconf : existing.confidence < res.confidence
        · rw [if_pos hconf]
          apply ih
          rw [replaceFirst_map (fun x => cityKey x == cityKey res) res cityKey
            (fun x hx => eq_of_beq hx) acc]
          exact hk
        · rw [if_neg hconf]
          exact ih seen acc k hk
      | none => exact ih seen acc k hk
    | false =>
      simp only [Bool.false_eq_true, if_false]
      apply ih
      rw [List.map_append]
      exact List.mem_append_left _ hk

theorem dedupGo_keys_complete :
    ∀ (rest : List EnhancedCityResult) (seen : List String) (acc : List EnhancedCityResult),
      seen = acc.map cityKey →
      ∀ s ∈ rest, cityKey s ∈ (dedupGo seen acc rest).map cityKey := by
  intro rest
  induction rest with
  | nil =>
    intro seen acc _ s hs
    exact absurd hs (List.not_mem_nil s)
  | cons res rest ih =>
    intro seen acc hseen s hs
    simp only [dedupGo]
    cases hc : seen.contains (cityKey res) with
    | true =>
      have hkmem : cityKey res ∈ acc.map cityKey := by
        rw [← hseen]
        simpa using hc
      simp only [if_true]
      cases hfind : acc.find? (fun x => cityKey x == cityKey res) with
      | some existing =>
        dsimp only
        by_cases hconf : existing.confidence < res.confidence
        · rw [if_pos hconf]
          have hkeys : (replaceFirst (fun x => cityKey x == cityKey res) res acc).map cityKey
              = acc.map cityKey :=
            replaceFirst_map _ res cityKey (fun x hx => eq_of_beq hx) acc
          rcases List.mem_cons.mp hs with rfl | hs'
          · exact dedupGo_keys_mono rest seen _ (cityKey s) (by rw [hkeys]; exact hkmem)
          · exact ih seen _ (by rw [hseen, hkeys]) s hs'
        · rw [if_neg hconf]
          rcases List.mem_cons.mp hs with rfl | hs'
          · exact dedupGo_keys_mono rest seen acc (cityKey s) hkmem
          · exact ih seen acc hseen s hs'
      | none =>
        dsimp only
        rcases List.mem_cons.mp hs with rfl | hs'
        · exact dedupGo_keys_mono rest seen acc (cityKey s) hkmem
        · exact ih seen acc hseen s hs'
    | false =>
      simp only [Bool.false_eq_true, if_false]
      have hseen' : seen ++ [cityKey res] = (acc ++ [res]).map cityKey := by
        rw [hseen, List.map_append]
        rfl
      rcases List.mem_cons.mp hs with rfl | hs'
      · apply dedupGo_keys_mono
        rw [List.map_append]
        exact List.mem_append_right _ (by simp)
      · exact ih _ _ hseen' s hs'

theorem dedupGo_keys_nodup :
    ∀ (rest : List EnhancedCityResult) (seen : List String) (acc : List EnhancedCityResult),
      seen = acc.map cityKey → (acc.map cityKey).Nodup →
      ((dedupGo seen acc rest).map cityKey).Nodup := by
  intro rest
  induction rest with
  | nil =>
    intro seen acc _ hnd
    simpa only [dedupGo] using hnd
  | cons res rest ih =>
    intro seen acc hseen hnd
    simp only [dedupGo]
    cases hc : seen.contains (cityKey res) with
    | true =>
      simp only [if_true]
      cases hfind : acc.find? (fun x => cityKey x == cityKey res) with
      | some existing =>
        dsimp only
        by_cases hconf : existing.confidence < res.confidence
        · rw [if_pos hconf]
          have hkeys : (replaceFirst (fun x => cityKey x == cityKey res) res acc).map cityKey
              = acc.map cityKey :=
            replaceFirst_map _ res cityKey (fun x hx => eq_of_beq hx) acc
          exact ih seen _ (by rw [hseen, hkeys]) (by rw [hkeys]; exact hnd)
        · rw [if_neg hconf]
          exact ih seen acc hseen hnd
      | none => exact ih seen acc hseen hnd
    | false =>
      simp only [Bool.false_eq_true, if_false]
      have hnotmem : cityKey res ∉ acc.map cityKey := by
        rw [← hseen]
        simpa using hc
      have hseen' : seen ++ [cityKey res] = (acc ++ [res]).map cityKey := by
        rw [hseen, List.map_append]
        rfl
      have hnd' : ((acc ++ [res]).map cityKey).Nodup := by
        rw [List.map_append]
        simp [List.nodup_append, hnd, hnotmem]
      exact ih _ _ hseen' hnd'

theorem dedupGo_max :
    ∀ (rest : List EnhancedCityResult) (seen : List String) (acc : List EnhancedCityResult),
      seen = acc.map cityKey → (acc.map cityKey).Nodup →
      ∀ r ∈ dedupGo seen acc rest,
        (∀ s ∈ rest, cityKey s = cityKey r → s.confidence ≤ r.confidence) ∧
        (∀ s ∈ acc, cityKey s = cityKey r → s.confidence ≤ r.confidence) := by
  intro rest
  induction rest with
  | nil =>
    intro seen acc _ hnd r hr
    simp only [dedupGo] at hr
    refine ⟨fun s hs => absurd hs (List.not_mem_nil s), ?_⟩
    intro s hs hk
    have hsr : s = r := List.inj_on_of_nodup_map hnd hs hr hk
    exact hsr ▸ le_refl _
  | cons res rest ih =>
    intro seen acc hseen hnd r hr
    simp only [dedupGo] at hr
    cases hc : seen.contains (cityKey res) with
    | true =>
      rw [hc] at hr
      simp only [if_true] at hr
      cases hfind : acc.find? (fun x => cityKey x == cityKey res) with
      | some existing =>
        simp only [hfind] at hr
        have hexmem : existing ∈ acc := List.mem_of_find?_eq_some hfind
        have hexkey : cityKey existing = cityKey res := by
          have hpe := List.find?_some hfind
          simpa using hpe
        by_cases hconf : existing.confidence < res.confidence
        · rw [if_pos hconf] at hr
          have hkeys : (replaceFirst (fun x => cityKey x == cityKey res) res acc).map cityKey
              = acc.map cityKey :=
            replaceFirst_map _ res cityKey (fun x hx => eq_of_beq hx) acc
          have ihh := ih seen _ (by rw [hseen, hkeys]) (by rw [hkeys]; exact hnd) r hr
          have hpe0 := List.find?_some hfind
          have hresmem : res ∈ replaceFirst (fun x => cityKey x == cityKey res) res acc :=
            self_mem_replaceFirst (fun x => cityKey x == cityKey res) res acc
              ⟨existing, hexmem, hpe0⟩
          constructor
          · intro s hs hk
            rcases List.mem_cons.mp hs with rfl | hs'
            · exact ihh.2 s hresmem hk
            · exact ihh.1 s hs' hk
          · intro s hs hk
            by_cases hps : (cityKey s == cityKey res) = true
            · have hskey : cityKey s = cityKey res := eq_of_beq hps
              have hsex : s = existing :=
                List.inj_on_of_nodup_map hnd hs hexmem (hskey.trans hexkey.symm)
              have hres_le : res.confidence ≤ r.confidence :=
                ihh.2 res hresmem (hskey ▸ hk)
              calc s.confidence = existing.confidence := by rw [hsex]
                _ ≤ res.confidence := le_of_lt hconf
                _ ≤ r.confidence := hres_le
            · have hps' : (fun x => cityKey x == cityKey res) s = false :=
                Bool.not_eq_true _ ▸ by simpa using hps
              exact ihh.2 s (mem_replaceFirst_of_not _ res acc s hs hps') hk
        · rw [if_neg hconf] at hr
          have ihh := ih seen acc hseen hnd r hr
          constructor
          · intro s hs hk
            rcases List.mem_cons.mp hs with rfl | hs'
            · have hex_le : existing.confidence ≤ r.confidence :=
                ihh.2 existing hexmem (hexkey.trans hk)
              exact le_trans (not_lt.mp hconf) hex_le
            · exact ihh.1 s hs' hk
          · exact ihh.2
      | none =>
        exfalso
        have hkmem : cityKey res ∈ acc.map cityKey := by
          rw [← hseen]
          simpa using hc
        rcases List.mem_map.mp hkmem with ⟨x, hx, hkx⟩
        exact List.find?_eq_none.mp hfind x hx (by simpa using hkx)
    | false =>
      rw [hc] at hr
      simp only [Bool.false_eq_true, if_false] at hr
      have hnotmem : cityKey res ∉ acc.map cityKey := by
        rw [← hseen]
        simpa using hc
      have hseen' : seen ++ [cityKey res] = (acc ++ [res]).map cityKey := by
        rw [hseen, List.map_append]
        rfl
      have hnd' : ((acc ++ [res]).map cityKey).Nodup := by
        rw [List.map_append]
        simp [List.nodup_append, hnd, hnotmem]
      have ihh := ih _ _ hseen' hnd' r hr
      constructor
      · intro s hs hk
        rcases List.mem_cons.mp hs with rfl | hs'
        · exact ihh.2 s (List.mem_append_right _ (by simp)) hk
        · exact ihh.1 s hs' hk
      · intro s hs hk
        exact ihh.2 s (List.mem_append_left _ hs) hk

/-- C9: `deduplicateResults` keeps exactly one entry per case-normalized
(name, country) key — the keys of the output are pairwise distinct, every
input key is represented, each surviving entry is an input entry whose
confidence is maximal among the inputs sharing its key (so a local
confidence-90 "Roma" beats an external confidence-85 "Roma") — and the
merged list built by the orchestrator never exceeds `maxResults`. -/
theorem dedup_precedence :
    (∀ l : List EnhancedCityResult, ((deduplicateResults l).map cityKey).Nodup) ∧
    (∀ (l : List EnhancedCityResult) (r : EnhancedCityResult), r ∈ deduplicateResults l →
      r ∈ l ∧ ∀ s ∈ l, cityKey s = cityKey r → s.confidence ≤ r.confidence) ∧
    (∀ (l : List EnhancedCityResult) (s : EnhancedCityResult), s ∈ l →
      cityKey s ∈ (deduplicateResults l).map cityKey) ∧
    deduplicateResults [romaLocal, romaApi] = [romaLocal] ∧
    (∀ (localResults apiResults : List EnhancedCityResult) (maxResults : Nat),
      ((sortResults (deduplicateResults (localResults ++ apiResults))).take maxResults).length
        ≤ maxResults) := by
  refine ⟨?_, ?_, ?_, ?_, ?_⟩
  · intro l
    exact dedupGo_keys_nodup l [] [] rfl List.nodup_nil
  · intro l r hr
    have hsub := dedupGo_mem_sub l [] [] r hr
    have hmax := dedupGo_max l [] [] rfl List.nodup_nil r hr
    refine ⟨?_, hmax.1⟩
    rcases hsub with h | h
    · exact absurd h (List.not_mem_nil r)
    · exact h
  · intro l s hs
    exact dedupGo_keys_complete l [] [] rfl s hs
  · have hk1 : cityKey romaLocal = "roma-italia" := by decide
    have hk2 : cityKey romaApi = "roma-italia" := by decide
    have hconf : ¬ (romaLocal.confidence < romaApi.confidence) := by
      norm_num [romaLocal, romaApi]
    simp [deduplicateResults, dedupGo, hk1, hk2, hconf]
  · intro localResults apiResults maxResults
    rw [List.length_take]
    exact min_le_left _ _

theorem dedup_precedence_witness :
    cityKey romaApi ∈ (deduplicateResults [romaLocal, romaApi]).map cityKey :=
  dedup_precedence.2.2.1 [romaLocal, romaApi] romaApi (by simp)

end SmartTravel
